import Mathlib

/-!
# utofa/parsechok: session persistence and browser automation flows

A shallow embedding of
* `internal/domain/session.go` and `internal/repository/session_repository.go`
  (the session record and its JSON file store),
* `pkg/selenium/whatsapp.go` (the flows that drive the remote browser),
* `internal/usecase/session_usecase.go` and `pkg/usecase/get_qr_code.go`
  (the use cases on top of them),

followed by theorems about them.
-/

set_option autoImplicit false

namespace repository

/-! ## Go strings and the UTF-8 coercion of `encoding/json` -/

/-- A Go string: an arbitrary sequence of bytes. -/
abbrev Bytes := List UInt8

/-- Continuation byte of a UTF-8 sequence, `0x80..0xBF`. -/
def isCont (b : UInt8) : Bool := decide (0x80 ≤ b) && decide (b ≤ 0xBF)

/-- Size of the well-formed UTF-8 sequence at the head of the bytes, as
`utf8.DecodeRune` accepts it (first-byte table and accept ranges of the Go
library); `0` when the head byte starts no well-formed sequence. -/
def runeLen : Bytes → Nat
  | [] => 0
  | b0 :: rest =>
    if b0 < 0x80 then 1
    else if 0xC2 ≤ b0 ∧ b0 ≤ 0xDF then
      match rest with
      | b1 :: _ => if isCont b1 then 2 else 0
      | _ => 0
    else if 0xE0 ≤ b0 ∧ b0 ≤ 0xEF then
      match rest with
      | b1 :: b2 :: _ =>
        let lo : UInt8 := if b0 = 0xE0 then 0xA0 else 0x80
        let hi : UInt8 := if b0 = 0xED then 0x9F else 0xBF
        if decide (lo ≤ b1) && decide (b1 ≤ hi) && isCont b2 then 3 else 0
      | _ => 0
    else if 0xF0 ≤ b0 ∧ b0 ≤ 0xF4 then
      match rest with
      | b1 :: b2 :: b3 :: _ =>
        let lo : UInt8 := if b0 = 0xF0 then 0x90 else 0x80
        let hi : UInt8 := if b0 = 0xF4 then 0x8F else 0xBF
        if decide (lo ≤ b1) && decide (b1 ≤ hi) && isCont b2 && isCont b3 then 4 else 0
      | _ => 0
    else 0

/-- The scan of `utf8.ValidString`: `skip` bytes of the current sequence are
still to be passed over; at a sequence start the head must be well formed. -/
def validFrom : Nat → Bytes → Bool
  | _, [] => true
  | k + 1, _ :: rest => validFrom k rest
  | 0, b :: rest =>
    match runeLen (b :: rest) with
    | 0 => false
    | n + 1 => validFrom n rest

/-- Valid UTF-8, `utf8.ValidString`. -/
def validUTF8 (s : Bytes) : Bool := validFrom 0 s

/-- The scan of the string encoder of `encoding/json`: a byte that starts no
well-formed sequence is written as U+FFFD (bytes `EF BF BD` once read back),
every well-formed sequence is kept. -/
def coerceFrom : Nat → Bytes → Bytes
  | _, [] => []
  | k + 1, b :: rest => b :: coerceFrom k rest
  | 0, b :: rest =>
    match runeLen (b :: rest) with
    | 0 => 0xEF :: 0xBF :: 0xBD :: coerceFrom 0 rest
    | n + 1 => b :: coerceFrom n rest

/-- Text of a JSON string written by `json.Marshal` for a Go string:
"String values encode as JSON strings coerced to valid UTF-8, replacing
invalid bytes with the Unicode replacement rune". -/
def jsonString (s : Bytes) : Bytes := coerceFrom 0 s

/-! ## `time.Time` and its RFC 3339 text -/

/-- A `time.Time`, by what encoding and comparison look at: the instant (as
nanoseconds since the Unix epoch), the offset east of UTC, in seconds, that
its location has at that instant, and the monotonic clock reading that
`time.Now` attaches. -/
structure Time where
  unixNano : Int
  offset : Int
  mono : Option Int
  deriving DecidableEq, Repr

/-- An RFC 3339 timestamp as spelled in a document: the date and time of day
it shows, counted in nanoseconds from `1970-01-01T00:00:00` on that same wall
clock, and its zone designator: `none` for `Z`, the signed minutes of
`±hh:mm` otherwise. -/
structure Timestamp where
  wallNano : Int
  zone : Option Int
  deriving DecidableEq, Repr

/-- First wall-clock nanosecond of year 0000. -/
def yearMin : Int := -62167219200 * 1000000000

/-- First wall-clock nanosecond of year 10000. -/
def yearMax : Int := 253402300800 * 1000000000

/-- The method `Time.MarshalJSON`: the time is formatted in its own location
with layout `2006-01-02T15:04:05.999999999Z07:00`; the zone is written `Z`
for offset zero and else in whole minutes (`offset / 60`, truncated); the
monotonic reading is not written. It is an error when the year shown is
outside `[0,9999]` or the zone hour is outside `[0,23]`. -/
def Time.MarshalJSON (t : Time) : Option Timestamp :=
  let wall := t.unixNano + t.offset * 1000000000
  if wall < yearMin ∨ yearMax ≤ wall then none
  else if t.offset = 0 then some ⟨wall, none⟩
  else
    let zone := Int.tdiv t.offset 60
    if 24 ≤ zone.natAbs / 60 then none else some ⟨wall, some zone⟩

/-- The method `Time.UnmarshalJSON` on a timestamp string: a four-digit year
and a zone of hours `00..23` are required; the instant is the wall clock
minus the zone offset. -/
def Time.UnmarshalJSON (ts : Timestamp) : Option Time :=
  if ts.wallNano < yearMin ∨ yearMax ≤ ts.wallNano then none
  else
    match ts.zone with
    | none => some ⟨ts.wallNano, 0, none⟩
    | some z =>
      if 24 ≤ z.natAbs / 60 then none
      else some ⟨ts.wallNano - z * 60 * 1000000000, z * 60, none⟩

/-- The method `Time.Equal`: same instant. -/
def Time.Equal (t u : Time) : Bool := decide (t.unixNano = u.unixNano)

/-! ## `internal/domain/session.go` -/

/-- The struct `Cookie`. -/
structure Cookie where
  Name : Bytes
  Value : Bytes
  Domain : Bytes
  Path : Bytes
  Expires : Time
  Secure : Bool
  HttpOnly : Bool
  deriving DecidableEq, Repr

/-- The struct `Storage`. -/
structure Storage where
  Key : Bytes
  Value : Bytes
  deriving DecidableEq, Repr

/-- The struct `Session`; a slice field is `none` for the nil slice. -/
structure Session where
  ID : Bytes
  Cookies : Option (List Cookie)
  Storage : Option (List Storage)
  CreatedAt : Time
  UpdatedAt : Time
  deriving DecidableEq, Repr

/-! ## The JSON document of a session, by its content -/

/-- Object written for a `Cookie`, keys `name`, `value`, `domain`, `path`,
`expires`, `secure`, `http_only`. -/
structure CookieJSON where
  name : Bytes
  value : Bytes
  domain : Bytes
  path : Bytes
  expires : Timestamp
  secure : Bool
  http_only : Bool
  deriving DecidableEq, Repr

/-- Object written for a `Storage`, keys `key`, `value`. -/
structure StorageJSON where
  key : Bytes
  value : Bytes
  deriving DecidableEq, Repr

/-- Object written for a `Session`, keys `id`, `cookies`, `storage`,
`created_at`, `updated_at`; a list is `none` when spelled `null`. -/
structure SessionJSON where
  id : Bytes
  cookies : Option (List CookieJSON)
  storage : Option (List StorageJSON)
  created_at : Timestamp
  updated_at : Timestamp
  deriving DecidableEq, Repr

/-- Elements are coded one after the other; the first error is the error of
the whole list. -/
def mapAll {α β : Type} (f : α → Option β) : List α → Option (List β)
  | [] => some []
  | a :: rest =>
    match f a with
    | none => none
    | some b =>
      match mapAll f rest with
      | none => none
      | some bs => some (b :: bs)

/-- Encoding of one cookie by `json.Marshal`. -/
def marshalCookie (c : Cookie) : Option CookieJSON :=
  match c.Expires.MarshalJSON with
  | none => none
  | some ts =>
    some ⟨jsonString c.Name, jsonString c.Value, jsonString c.Domain, jsonString c.Path,
      ts, c.Secure, c.HttpOnly⟩

/-- Encoding of one storage entry by `json.Marshal`. -/
def marshalStorage (e : Storage) : StorageJSON :=
  ⟨jsonString e.Key, jsonString e.Value⟩

/-- Encoding of a cookie slice: `null` for nil, an array otherwise. -/
def marshalCookies : Option (List Cookie) → Option (Option (List CookieJSON))
  | none => some none
  | some cs =>
    match mapAll marshalCookie cs with
    | none => none
    | some js => some (some js)

/-- The call `json.Marshal(session)`; `none` when it returns an error. -/
def marshal (s : Session) : Option SessionJSON :=
  match marshalCookies s.Cookies, s.CreatedAt.MarshalJSON, s.UpdatedAt.MarshalJSON with
  | some cs, some created, some updated =>
    some ⟨jsonString s.ID, cs, s.Storage.map (List.map marshalStorage), created, updated⟩
  | _, _, _ => none

/-- Decoding of one cookie object. -/
def unmarshalCookie (j : CookieJSON) : Option Cookie :=
  match Time.UnmarshalJSON j.expires with
  | none => none
  | some t => some ⟨j.name, j.value, j.domain, j.path, t, j.secure, j.http_only⟩

/-- Decoding of one storage object. -/
def unmarshalStorage (j : StorageJSON) : Storage := ⟨j.key, j.value⟩

/-- Decoding of a cookie list: `null` leaves the nil slice. -/
def unmarshalCookies : Option (List CookieJSON) → Option (Option (List Cookie))
  | none => some none
  | some js =>
    match mapAll unmarshalCookie js with
    | none => none
    | some cs => some (some cs)

/-- The call `json.Unmarshal(data, &session)` on a session document, into
the zero `Session`; `none` when it returns an error. -/
def unmarshal (j : SessionJSON) : Option Session :=
  match unmarshalCookies j.cookies, Time.UnmarshalJSON j.created_at,
      Time.UnmarshalJSON j.updated_at with
  | some cs, some created, some updated =>
    some ⟨j.id, cs, j.storage.map (List.map unmarshalStorage), created, updated⟩
  | _, _, _ => none

/-! ## `internal/repository/session_repository.go` -/

/-- What a file holds: the text of a session document, or bytes that
`json.Unmarshal` rejects. -/
inductive FileData where
  | document (doc : SessionJSON)
  | malformed
  deriving DecidableEq, Repr

/-- What reading a path gives. -/
inductive File where
  | absent
  | unreadable
  | data (content : FileData)
  deriving DecidableEq, Repr

/-- The storage directory: the file at each path, and whether the system
lets a path be written. -/
structure Disk where
  file : Bytes → File
  writable : Bytes → Bool

/-- The path `filepath.Join(r.storagePath, id+".json")`: the directory, a
separator `/` and the name `id` followed by the bytes of `.json`. Both
operations build the path by this one expression; the cleaning done by
`Join` is not modelled. -/
def filePath (storagePath id : Bytes) : Bytes :=
  storagePath ++ [0x2F] ++ (id ++ [0x2E, 0x6A, 0x73, 0x6F, 0x6E])

/-- The method `sessionRepository.Save`: the error, if any, and the disk
afterwards. Of an error message the fixed part is kept, the cause that `%v`
appends is left out. -/
def Save (storagePath : Bytes) (disk : Disk) (session : Session) : Option String × Disk :=
  match marshal session with
  | none => (some "failed to marshal session", disk)
  | some data =>
    let path := filePath storagePath session.ID
    if disk.writable path then
      (none, { disk with
        file := fun p => if p = path then File.data (FileData.document data) else disk.file p })
    else (some "failed to write session file", disk)

/-- The method `sessionRepository.GetByID`: an error (the fixed part of its
message), or the record, `none` when the file does not exist. -/
def GetByID (storagePath : Bytes) (disk : Disk) (id : Bytes) : Except String (Option Session) :=
  match disk.file (filePath storagePath id) with
  | File.absent => .ok none
  | File.unreadable => .error "failed to read session file"
  | File.data FileData.malformed => .error "failed to unmarshal session"
  | File.data (FileData.document doc) =>
    match unmarshal doc with
    | none => .error "failed to unmarshal session"
    | some session => .ok (some session)

/-! ## Round trip through the session file -/

/-- The time with its monotonic clock reading removed. -/
def Time.stripMonotonic (t : Time) : Time := { t with mono := none }

/-- The cookie with the monotonic reading of its expiry removed. -/
def Cookie.stripMonotonic (c : Cookie) : Cookie :=
  { c with Expires := c.Expires.stripMonotonic }

/-- The record with the monotonic reading of every timestamp removed. -/
def Session.stripMonotonic (s : Session) : Session :=
  { s with
    Cookies := s.Cookies.map (List.map Cookie.stripMonotonic)
    CreatedAt := s.CreatedAt.stripMonotonic
    UpdatedAt := s.UpdatedAt.stripMonotonic }

/-- Every string of the cookie is valid UTF-8. -/
def Cookie.validText (c : Cookie) : Bool :=
  validUTF8 c.Name && validUTF8 c.Value && validUTF8 c.Domain && validUTF8 c.Path

/-- Every string of the storage entry is valid UTF-8. -/
def Storage.validText (e : Storage) : Bool := validUTF8 e.Key && validUTF8 e.Value

/-- Every string of the record is valid UTF-8. -/
def Session.validText (s : Session) : Bool :=
  validUTF8 s.ID && (s.Cookies.getD []).all Cookie.validText &&
    (s.Storage.getD []).all Storage.validText

/-- The zone offset is a whole number of minutes. -/
def Time.wholeMinuteZone (t : Time) : Bool := decide (t.offset % 60 = 0)

/-- Every timestamp of the record has a zone offset of whole minutes. -/
def Session.wholeMinuteZones (s : Session) : Bool :=
  s.CreatedAt.wholeMinuteZone && s.UpdatedAt.wholeMinuteZone &&
    (s.Cookies.getD []).all (fun c => c.Expires.wholeMinuteZone)

/-- No timestamp of the record carries a monotonic clock reading. -/
def Session.noMonotonic (s : Session) : Bool :=
  s.CreatedAt.mono.isNone && s.UpdatedAt.mono.isNone &&
    (s.Cookies.getD []).all (fun c => c.Expires.mono.isNone)

/-- A disk with no file, every path writable. -/
def emptyDisk : Disk := ⟨fun _ => File.absent, fun _ => true⟩

/-- The directory `storage`. -/
def storageDir : Bytes := [0x73, 0x74, 0x6F, 0x72, 0x61, 0x67, 0x65]

/-- A record with one cookie and one storage entry, all text ASCII, a cookie
expiry in a zone one hour east of UTC. -/
def sampleSession : Session :=
  { ID := [0x61, 0x62]
    Cookies := some [⟨[0x6B], [0x76], [0x64], [0x2F], ⟨1700000000000000000, 3600, none⟩, true, false⟩]
    Storage := some [⟨[0x6B], [0x76]⟩]
    CreatedAt := ⟨1700000000123456789, 0, none⟩
    UpdatedAt := ⟨1700000001000000000, -18000, none⟩ }

/-- A record whose identity is the single byte `0xFF`, no UTF-8 text. -/
def badIdentity : Session :=
  { ID := [0xFF], Cookies := none, Storage := none
    CreatedAt := ⟨0, 0, none⟩, UpdatedAt := ⟨0, 0, none⟩ }

/-- A record created as `CreateSession` does, with `time.Now()`: the
timestamps carry a monotonic clock reading. -/
def freshSession : Session :=
  { ID := [0x61], Cookies := none, Storage := none
    CreatedAt := ⟨1700000000000000000, 0, some 5⟩, UpdatedAt := ⟨1700000000000000000, 0, some 6⟩ }

/-- A record whose creation time is in a zone 30 seconds east of UTC. -/
def oddZone : Session :=
  { ID := [0x61], Cookies := none, Storage := none
    CreatedAt := ⟨0, 30, none⟩, UpdatedAt := ⟨0, 0, none⟩ }

end repository

namespace selenium

/-! ## `pkg/selenium/whatsapp.go`: values and the remote browser -/

/-- Handle of a page element (`selenium.WebElement`). -/
abbrev Element := Nat

/-- The struct `selenium.Cookie` of the driver library. -/
structure Cookie where
  Name : String
  Value : String
  Path : String
  Domain : String
  Secure : Bool
  Expiry : Nat
  deriving DecidableEq, Repr

/-- A JSON value, and the Go value `encoding/json` decodes it to in an
`interface{}`: `nil`, `bool`, `float64` (its numeric payload is not
interpreted here), `string`, `[]interface{}`, `map[string]interface{}`. -/
inductive Value where
  | null
  | bool (b : Bool)
  | number (n : Int)
  | string (s : String)
  | array (items : List Value)
  | object (fields : List (String × Value))
  deriving Repr

/-- A value held in an `interface{}` in this package: a decoded JSON value,
or a cookie slice `[]selenium.Cookie`. -/
inductive Any where
  | json (v : Value)
  | cookies (cs : List Cookie)
  deriving Repr

/-- The bytes of session data: the text of a JSON document, or text that
`json.Unmarshal` rejects with the given error. -/
inductive SessionData where
  | document (v : Value)
  | malformed (reason : String)
  deriving Repr

/-- A call made on the remote browser or on the driver service. -/
inductive Call where
  | DeleteAllCookies
  | Get (url : String)
  | ExecuteScript (script : String) (args : List Element)
  | CurrentURL
  | FindElement (strategy value : String)
  | IsDisplayed (e : Element)
  | GetAttribute (e : Element) (name : String)
  | GetCookies
  | AddCookie (c : Cookie)
  | Refresh
  | SendKeys (e : Element) (keys : String)
  | Quit
  | Stop
  deriving DecidableEq, Repr

/-- The remote browser as the client sees it. The reply to a call may depend
on every call made before it (the first argument); an `Option String` reply
is the error, if any. `duration` is the time a call takes, in nanoseconds;
`formatDuration` is the text `%v` prints for a `time.Duration`. -/
structure Driver where
  DeleteAllCookies : List Call → Option String
  Get : List Call → String → Option String
  ExecuteScript : List Call → String → List Element → Except String Value
  CurrentURL : List Call → Except String String
  FindElement : List Call → String → String → Except String Element
  IsDisplayed : List Call → Element → Except String Bool
  GetAttribute : List Call → Element → String → Except String String
  GetCookies : List Call → Except String (List Cookie)
  AddCookie : List Call → Cookie → Option String
  Refresh : List Call → Option String
  SendKeys : List Call → Element → String → Option String
  Quit : List Call → Option String
  duration : List Call → Call → Nat
  formatDuration : Int → String

/-- A run in progress: the calls made so far, and the reading of the clock
in nanoseconds. -/
structure Run where
  trace : List Call
  now : Int
  deriving DecidableEq, Repr

/-- The run after call `c`: it is recorded and the clock moves by the time
the call takes. -/
def step (d : Driver) (c : Call) (r : Run) : Run :=
  ⟨r.trace ++ [c], r.now + d.duration r.trace c⟩

/-- The run after `time.Sleep(n)`. -/
def sleep (n : Nat) (r : Run) : Run := ⟨r.trace, r.now + n⟩

/-- The constant `whatsappURL`. -/
def whatsappURL : String := "https://web.whatsapp.com"

/-- The constant `qrCodeXPath`. -/
def qrCodeXPath : String := "//*[@id='app']/div/div/div[2]/div[1]/div/div[2]/div/canvas"

/-- The constant `defaultTimeout`, `30 * time.Second`, in nanoseconds. -/
def defaultTimeout : Int := 30000000000

/-- The poll interval of `waitForElement`, `500 * time.Millisecond`. -/
def pollInterval : Nat := 500000000

/-- The library constant `selenium.ByXPATH`. -/
def ByXPATH : String := "xpath"

/-- The library constant `selenium.ByCSSSelector`. -/
def ByCSSSelector : String := "css selector"

/-! ## `waitForElement` -/

/-- The loop of `waitForElement`: while the clock is before the deadline,
find the element, ask whether it is displayed, return it when both succeed
and it is displayed, else sleep one poll interval. The result is the element,
or `none` for leaving the loop at the deadline; the outer `none` is running
out of `fuel`. -/
def waitLoop (d : Driver) (strategy value : String) (deadline : Int) :
    Nat → Run → Option (Option Element × Run)
  | 0, _ => none
  | fuel + 1, r =>
    if r.now < deadline then
      let r1 := step d (Call.FindElement strategy value) r
      match d.FindElement r.trace strategy value with
      | .ok element =>
        let r2 := step d (Call.IsDisplayed element) r1
        match d.IsDisplayed r1.trace element with
        | .ok true => some (some element, r2)
        | _ => waitLoop d strategy value deadline fuel (sleep pollInterval r2)
      | .error _ => waitLoop d strategy value deadline fuel (sleep pollInterval r1)
    else some (none, r)

/-- Fuel that lets the loop reach the deadline: every turn sleeps one poll
interval, so `timeout / pollInterval + 1` turns pass the deadline. -/
def waitFuel (timeout : Int) : Nat := timeout.toNat / pollInterval + 2

/-- The error `waitForElement` returns at the deadline. -/
def notFound (d : Driver) (timeout : Int) : String :=
  "element not found or not visible after " ++ d.formatDuration timeout

/-- The method `WhatsAppClient.waitForElement`. -/
def waitForElement (d : Driver) (strategy value : String) (timeout : Int) (r : Run) :
    Except String Element × Run :=
  match waitLoop d strategy value (r.now + timeout) (waitFuel timeout) r with
  | some (some element, r') => (.ok element, r')
  | some (none, r') => (.error (notFound d timeout), r')
  | none => (.error (notFound d timeout), r)

/-! ## `GetQRCode` -/

/-- The script that probes the two local-storage tokens. -/
def probeScript : String :=
  "\n\t\treturn window.localStorage.getItem('WAToken1') !== null && \n\t\t\t   window.localStorage.getItem('WAToken2') !== null;\n\t"

/-- The script that exports the canvas. -/
def canvasScript : String :=
  "\n\t\t\t\tvar canvas = arguments[0];\n\t\t\t\treturn canvas.toDataURL('image/png');\n\t\t\t"

/-- Lines 276-302 of `GetQRCode`: the payload of the located element, from
its `data-url` attribute, else its `src` attribute, else the canvas script. -/
def qrData (d : Driver) (qrElement : Element) (r : Run) : Except String String × Run :=
  let r1 := step d (Call.GetAttribute qrElement "data-url") r
  match d.GetAttribute r.trace qrElement "data-url" with
  | .ok dataURL => (.ok dataURL, r1)
  | .error _ =>
    let r2 := step d (Call.GetAttribute qrElement "src") r1
    match d.GetAttribute r1.trace qrElement "src" with
    | .ok dataURL => (.ok dataURL, r2)
    | .error _ =>
      let r3 := step d (Call.ExecuteScript canvasScript [qrElement]) r2
      match d.ExecuteScript r2.trace canvasScript [qrElement] with
      | .error err => (.error ("failed to get QR code data: " ++ err), r3)
      | .ok (Value.string dataURL) => (.ok dataURL, r3)
      | .ok _ => (.error "failed to convert QR code data to string", r3)

/-- Lines 264-274 of `GetQRCode`: the QR element by the primary locator, on
failure by the plain `canvas` selector. -/
def locateQR (d : Driver) (r : Run) : Except String Element × Run :=
  match waitForElement d ByXPATH qrCodeXPath defaultTimeout r with
  | (.ok qrElement, r1) => (.ok qrElement, r1)
  | (.error _, r1) =>
    match waitForElement d ByCSSSelector "canvas" defaultTimeout r1 with
    | (.ok qrElement, r2) => (.ok qrElement, r2)
    | (.error err, r2) => (.error ("failed to find QR code element: " ++ err), r2)

/-- The method `WhatsAppClient.GetQRCode`; the pair `(string, error)` it
returns has the empty string beside every error. The session identity is
only logged. -/
def GetQRCode (d : Driver) (_sessionID : String) (r : Run) : Except String String × Run :=
  let r1 := step d Call.DeleteAllCookies r
  let r2 := step d (Call.Get whatsappURL) r1
  match d.Get r1.trace whatsappURL with
  | some err => (.error ("failed to open WhatsApp Web: " ++ err), r2)
  | none =>
    let r3 := step d (Call.ExecuteScript probeScript []) r2
    match d.ExecuteScript r2.trace probeScript [] with
    | .ok (Value.bool true) => (.error "Already authorized", r3)
    | _ =>
      let r4 := step d Call.CurrentURL r3
      match locateQR d r4 with
      | (.error err, r5) => (.error err, r5)
      | (.ok qrElement, r5) => qrData d qrElement r5

/-! ## `GetSessionData` and `RestoreSession` -/

/-- The JSON object `json.Marshal` writes for a `selenium.Cookie`. -/
def cookieValue (c : Cookie) : Value :=
  Value.object [("name", Value.string c.Name), ("value", Value.string c.Value),
    ("path", Value.string c.Path), ("domain", Value.string c.Domain),
    ("secure", Value.bool c.Secure), ("expiry", Value.number c.Expiry)]

/-- The JSON value `json.Marshal` writes for a value held in an
`interface{}`; a cookie slice is written as an array of objects (a nil slice,
written `null`, is not told apart from the empty one). -/
def Any.marshal : Any → Value
  | Any.json v => v
  | Any.cookies cs => Value.array (cs.map cookieValue)

/-- The call `json.Marshal` on a `map[string]interface{}`, its entries given
in key order. -/
def marshalMap (entries : List (String × Any)) : SessionData :=
  SessionData.document (Value.object (entries.map fun kv => (kv.1, kv.2.marshal)))

/-- The call `json.Unmarshal(sessionData, &data)` into a nil
`map[string]interface{}`: an object fills the map with decoded JSON values,
`null` leaves it nil, any other document is a type error. -/
def unmarshalMap : SessionData → Except String (List (String × Any))
  | SessionData.malformed reason => .error reason
  | SessionData.document (Value.object fields) =>
    .ok (fields.map fun kv => (kv.1, Any.json kv.2))
  | SessionData.document Value.null => .ok []
  | SessionData.document (Value.bool _) =>
    .error "json: cannot unmarshal bool into Go value of type map[string]interface \x7b\x7d"
  | SessionData.document (Value.number _) =>
    .error "json: cannot unmarshal number into Go value of type map[string]interface \x7b\x7d"
  | SessionData.document (Value.string _) =>
    .error "json: cannot unmarshal string into Go value of type map[string]interface \x7b\x7d"
  | SessionData.document (Value.array _) =>
    .error "json: cannot unmarshal array into Go value of type map[string]interface \x7b\x7d"

/-- The index expression `data[key]`: the value decoded last under the key,
the nil interface when there is none. -/
def index (data : List (String × Any)) (key : String) : Any :=
  match data.reverse.find? (fun kv => kv.1 == key) with
  | some kv => kv.2
  | none => Any.json Value.null

/-- The type assertion `.([]selenium.Cookie)`. -/
def Any.asCookies : Any → Option (List Cookie)
  | Any.cookies cs => some cs
  | Any.json _ => none

/-- The type assertion `.([]interface{})`. -/
def Any.asSlice : Any → Option (List Value)
  | Any.json (Value.array items) => some items
  | _ => none

/-- The method `WhatsAppClient.GetSessionData`. -/
def GetSessionData (d : Driver) (r : Run) : Except String SessionData × Run :=
  let r1 := step d Call.GetCookies r
  match d.GetCookies r.trace with
  | .error err => (.error ("failed to get cookies: " ++ err), r1)
  | .ok cookies =>
    let r2 := step d (Call.ExecuteScript "return Object.entries(localStorage)" []) r1
    match d.ExecuteScript r1.trace "return Object.entries(localStorage)" [] with
    | .error err => (.error ("failed to get localStorage: " ++ err), r2)
    | .ok localStorage =>
      (.ok (marshalMap [("cookies", Any.cookies cookies),
        ("localStorage", Any.json localStorage)]), r2)

/-- How a call ends: it returns its error value (`none` for `nil`), or the
goroutine panics. -/
inductive Outcome where
  | returned (err : Option String)
  | panic
  deriving DecidableEq, Repr

/-- The cookie loop of `RestoreSession`: one `AddCookie` per cookie, in
order, the first error ends it. -/
def addCookies (d : Driver) : List Cookie → Run → Option String × Run
  | [], r => (none, r)
  | cookie :: rest, r =>
    match d.AddCookie r.trace cookie with
    | some err => (some ("failed to restore cookie: " ++ err), step d (Call.AddCookie cookie) r)
    | none => addCookies d rest (step d (Call.AddCookie cookie) r)

/-- The script loop of `RestoreSession`: a statement is appended for every
item that is a two-element list, `key := pair[0].(string)` and
`value := pair[1].(string)` panic when the member is no string (`none`). -/
def storageScript (script : String) : List Value → Option String
  | [] => some script
  | Value.array [Value.string key, Value.string value] :: rest =>
    storageScript (script ++ ("localStorage.setItem('" ++ key ++ "', '" ++ value ++ "');")) rest
  | Value.array [_, _] :: _ => none
  | _ :: rest => storageScript script rest

/-- Lines 347-367 of `RestoreSession`: the local storage and the reload. -/
def restoreStorage (d : Driver) (data : List (String × Any)) (r : Run) : Outcome × Run :=
  let refresh (r : Run) : Outcome × Run :=
    match d.Refresh r.trace with
    | some err => (Outcome.returned (some ("failed to refresh page: " ++ err)), step d Call.Refresh r)
    | none => (Outcome.returned none, step d Call.Refresh r)
  match (index data "localStorage").asSlice with
  | some localStorage =>
    match storageScript "localStorage.clear();" localStorage with
    | none => (Outcome.panic, r)
    | some script =>
      match d.ExecuteScript r.trace script [] with
      | .error err =>
        (Outcome.returned (some ("failed to restore localStorage: " ++ err)),
          step d (Call.ExecuteScript script []) r)
      | .ok _ => refresh (step d (Call.ExecuteScript script []) r)
  | none => refresh r

/-- The method `WhatsAppClient.RestoreSession`. -/
def RestoreSession (d : Driver) (sessionData : SessionData) (r : Run) : Outcome × Run :=
  let r1 := step d (Call.Get whatsappURL) r
  match d.Get r.trace whatsappURL with
  | some err => (Outcome.returned (some ("failed to open WhatsApp Web: " ++ err)), r1)
  | none =>
    match unmarshalMap sessionData with
    | .error err => (Outcome.returned (some ("failed to unmarshal session data: " ++ err)), r1)
    | .ok data =>
      match (index data "cookies").asCookies with
      | some cookies =>
        match addCookies d cookies r1 with
        | (some err, r2) => (Outcome.returned (some err), r2)
        | (none, r2) => restoreStorage d data r2
      | none => restoreStorage d data r1

/-! ## `Close` -/

/-- The method `WhatsAppClient.Close`; `Call.Stop` is `c.service.Stop()`,
whose result is dropped. -/
def Close (d : Driver) (r : Run) : Option String × Run :=
  match d.Quit r.trace with
  | some err => (some ("failed to quit driver: " ++ err), step d Call.Quit r)
  | none => (none, step d Call.Stop (step d Call.Quit r))

end selenium

namespace usecase

open repository selenium

/-! ## `internal/usecase/session_usecase.go` -/

/-- The method `sessionUseCase.CreateSession`; `uuid` is the fresh identity
and `created`, `updated` the two readings of `time.Now()`. The argument the
source passes to `GetQRCode` is `context.Background()`, which `GetQRCode`
only logs. The result is the session with the QR code, or the error, and the
disk afterwards. -/
def CreateSession (storagePath : Bytes) (disk : Disk) (d : Driver) (uuid : Bytes)
    (created updated : Time) (r : Run) : Except String (Session × String) × Disk × Run :=
  match GetQRCode d "context.Background" r with
  | (.error err, r1) => (.error ("failed to get QR code: " ++ err), disk, r1)
  | (.ok qrCode, r1) =>
    let session : Session :=
      { ID := uuid, Cookies := none, Storage := none, CreatedAt := created, UpdatedAt := updated }
    match Save storagePath disk session with
    | (some err, disk1) => (.error ("failed to save session: " ++ err), disk1, r1)
    | (none, disk1) => (.ok (session, qrCode), disk1, r1)

/-- The method `sessionUseCase.RestoreSession`: the record is looked up, the
session data is read with `GetSessionData`, and that data is restored. -/
def RestoreSession (storagePath : Bytes) (disk : Disk) (d : Driver) (id : Bytes) (r : Run) :
    Outcome × Run :=
  match GetByID storagePath disk id with
  | .error err => (Outcome.returned (some ("failed to get session: " ++ err)), r)
  | .ok none => (Outcome.returned (some "session not found"), r)
  | .ok (some _) =>
    match GetSessionData d r with
    | (.error err, r1) => (Outcome.returned (some ("failed to get session data: " ++ err)), r1)
    | (.ok sessionData, r1) =>
      match selenium.RestoreSession d sessionData r1 with
      | (Outcome.returned (some err), r2) =>
        (Outcome.returned (some ("failed to restore session: " ++ err)), r2)
      | (outcome, r2) => (outcome, r2)

/-! ## `pkg/usecase/get_qr_code.go` -/

/-- The struct `WhatsAppProfile`. -/
structure WhatsAppProfile where
  ID : Int
  Path : String
  IsValid : Bool
  deriving DecidableEq, Repr

/-- The interface `ProfileRepository`. -/
structure ProfileRepository where
  Get : Int → Except String WhatsAppProfile
  Save : WhatsAppProfile → Option String
  Validate : String → Bool × String

/-- The struct `Result`. -/
structure Result where
  QRCode : String
  Error : String
  deriving DecidableEq, Repr

/-- The method `GetQRCodeUseCase.Execute`. -/
def Execute (profiles : ProfileRepository) (d : Driver) (sessionID : String) (profileID : Int)
    (r : Run) : Except String Result × Run :=
  let getQR (r : Run) : Except String Result × Run :=
    match GetQRCode d sessionID r with
    | (.error err, r1) =>
      if err = "Already authorized" then (.ok ⟨"", "Already authorized"⟩, r1)
      else (.error ("failed to get QR code: " ++ err), r1)
    | (.ok qrCode, r1) => (.ok ⟨qrCode, ""⟩, r1)
  match profiles.Get profileID with
  | .error _ => (.ok ⟨"", "Profile not found"⟩, r)
  | .ok profile =>
    if !profile.IsValid then
      match profiles.Validate profile.Path with
      | (false, message) => (.ok ⟨"", message⟩, r)
      | (true, _) =>
        match profiles.Save { profile with IsValid := true } with
        | some err => (.error ("failed to save profile: " ++ err), r)
        | none => getQR r
    else getQR r

end usecase

namespace selenium

/-! ## Sample browsers -/

/-- A browser on which every call succeeds at once; the page holds no
element, no cookie and no stored value. -/
def idleDriver : Driver :=
  { DeleteAllCookies := fun _ => none
    Get := fun _ _ => none
    ExecuteScript := fun _ _ _ => .ok Value.null
    CurrentURL := fun _ => .ok "https://web.whatsapp.com/"
    FindElement := fun _ _ _ => .error "no such element"
    IsDisplayed := fun _ _ => .ok false
    GetAttribute := fun _ _ _ => .error "nil return value"
    GetCookies := fun _ => .ok []
    AddCookie := fun _ _ => none
    Refresh := fun _ => none
    SendKeys := fun _ _ _ => none
    Quit := fun _ => none
    duration := fun _ _ => 0
    formatDuration := fun _ => "1s" }

/-- The idle browser with the implicit wait of 30 seconds that
`NewWhatsAppClient` sets: a find-element call for an absent element takes
that long before it fails. -/
def slowDriver : Driver :=
  { idleDriver with
    duration := fun _ c =>
      match c with
      | Call.FindElement _ _ => 30000000000
      | _ => 0 }

/-- The start of a run: no call made, clock at zero. -/
def start : Run := ⟨[], 0⟩

/-! ## The extraction of the QR payload, as specified -/

/-- Strategies "tried in order, first success wins": the result of the first
strategy that has one. -/
def firstSuccess : List (Option String) → Option String
  | [] => none
  | some payload :: _ => some payload
  | none :: rest => firstSuccess rest

/-- Outcome of the strategy that reads attribute `name` of the element after
the calls `h`: the attribute when the call succeeds. -/
def attributeStrategy (d : Driver) (h : List Call) (e : Element) (name : String) :
    Option String :=
  match d.GetAttribute h e name with
  | .ok s => some s
  | .error _ => none

/-- Outcome of the canvas-export strategy after the calls `h`: the result of
the script when it runs without error and gives a string. -/
def canvasStrategy (d : Driver) (h : List Call) (e : Element) : Option String :=
  match d.ExecuteScript h canvasScript [e] with
  | .ok (Value.string s) => some s
  | _ => none

/-- The run of `GetQRCode` up to the search for the QR element, when
navigation succeeds and the probe does not end the flow. -/
def afterProbe (d : Driver) (r : Run) : Run :=
  step d Call.CurrentURL (step d (Call.ExecuteScript probeScript [])
    (step d (Call.Get whatsappURL) (step d Call.DeleteAllCookies r)))

/-- A browser that is logged in: the probe script returns `true`. -/
def authorizedDriver : Driver :=
  { idleDriver with ExecuteScript := fun _ _ _ => .ok (Value.bool true) }

/-- A browser that shows the QR canvas as element 7, without `data-url` and
`src` attributes; the canvas script exports it, the probe returns `false`. -/
def canvasDriver : Driver :=
  { idleDriver with
    ExecuteScript := fun _ script _ =>
      if script = canvasScript then .ok (Value.string "data:image/png;base64,iVBORw0KGgo=")
      else .ok (Value.bool false)
    FindElement := fun _ _ _ => .ok 7
    IsDisplayed := fun _ _ => .ok true }

/-- A browser whose session is gone: the quit request fails. -/
def quitFailsDriver : Driver :=
  { idleDriver with Quit := fun _ => some "invalid session id" }

/-- A cookie of the live browser. -/
def sampleCookie : Cookie := ⟨"wa_ul", "abc", "/", ".web.whatsapp.com", true, 1893456000⟩

/-- A second cookie. -/
def otherCookie : Cookie := ⟨"wa_lang_pref", "en", "/", ".web.whatsapp.com", false, 1893456000⟩

/-- A browser that holds one cookie and an empty local storage; every call
succeeds. -/
def cookieDriver : Driver :=
  { idleDriver with
    ExecuteScript := fun _ _ _ => .ok (Value.array [])
    GetCookies := fun _ => .ok [sampleCookie] }

/-- A browser that refuses every cookie. -/
def rejectCookiesDriver : Driver :=
  { idleDriver with AddCookie := fun _ _ => some "invalid cookie domain" }

/-- Session data with two cookies and an empty local storage, as
`GetSessionData` writes it. -/
def twoCookies : SessionData :=
  marshalMap [("cookies", Any.cookies [sampleCookie, otherCookie]),
    ("localStorage", Any.json (Value.array []))]

/-- The runs of `GetQRCode` from `r` in which navigation succeeds and the
probe script returns the boolean `true`. -/
def authorized (d : Driver) (r : Run) : Prop :=
  d.Get (r.trace ++ [Call.DeleteAllCookies]) whatsappURL = none ∧
  d.ExecuteScript (r.trace ++ [Call.DeleteAllCookies] ++ [Call.Get whatsappURL]) probeScript []
    = .ok (Value.bool true)

end selenium

namespace usecase

open repository selenium

/-! ## Sample store -/

/-- A persisted record with one cookie and one storage entry. -/
def storedSession : Session :=
  { ID := [0x61, 0x62]
    Cookies := some [⟨[0x73, 0x69, 0x64], [0x31], [0x64], [0x2F], ⟨1893456000000000000, 0, none⟩,
      true, true⟩]
    Storage := some [⟨[0x6B], [0x76]⟩]
    CreatedAt := ⟨1700000000000000000, 0, none⟩
    UpdatedAt := ⟨1700000000000000000, 0, none⟩ }

/-- The disk after `storedSession` was saved in the storage directory. -/
def storedDisk : Disk := (Save storageDir emptyDisk storedSession).2

end usecase

namespace selenium

/-- A browser on which the element appears late: find-element fails while
fewer than two calls were made, then gives element 7, which is displayed. -/
def lateDriver : Driver :=
  { idleDriver with
    FindElement := fun h _ _ => if h.length < 2 then .error "no such element" else .ok 7
    IsDisplayed := fun _ _ => .ok true }

/-! ## `findFreePort` -/

/-- The constant `minPort`. -/
def minPort : Nat := 9515

/-- The constant `maxPort`. -/
def maxPort : Nat := 9999

/-- The error of `findFreePort`. -/
def noFreePort : String := "no free ports available between 9515 and 9999"

/-- The loop of `findFreePort` from `port` on: while `port <= maxPort`, try
`net.Listen` on the port (`listen port` is its error, if any), return the
port when it binds, else go on with the next port. The outer `none` is
running out of `fuel`. -/
def portScan (listen : Nat → Option String) : Nat → Nat → Option (Except String Nat)
  | 0, _ => none
  | fuel + 1, port =>
    if port ≤ maxPort then
      match listen port with
      | some _ => portScan listen fuel (port + 1)
      | none => some (.ok port)
    else some (.error noFreePort)

/-- The function `findFreePort`; every port is tried at most once, so the
bind outcomes are an assignment `listen` of an error (or none) to each
port. The loop makes at most `maxPort - minPort + 1` turns. -/
def findFreePort (listen : Nat → Option String) : Except String Nat :=
  match portScan listen (maxPort - minPort + 2) minPort with
  | some result => result
  | none => .error noFreePort

/-! ## The machine at start-up -/

/-- An entry of a directory listing (`os.FileInfo`): name, whether it is a
directory, modification time in nanoseconds. -/
structure FileInfo where
  Name : String
  IsDir : Bool
  ModTime : Int
  deriving DecidableEq, Repr

/-- What `ioutil.ReadDir` gives: the directory does not exist, another
error, or the entries. -/
inductive Listing where
  | notExist
  | failed (err : String)
  | entries (files : List FileInfo)
  deriving DecidableEq, Repr

/-- A call made on the operating system, the driver service or the new
remote session while the client starts. -/
inductive HostCall where
  | ReadDir (dir : String)
  | RemoveAll (path : String)
  | Abs (path : String)
  | MkdirAll (path : String)
  | NewChromeDriverService (path : String) (port : Nat)
  | Dial (port : Nat)
  | NewRemote (port : Nat)
  | SetImplicitWaitTimeout (timeout : Int)
  | SetPageLoadTimeout (timeout : Int)
  | Quit
  | Stop
  deriving DecidableEq, Repr

/-- The machine as `NewWhatsAppClient` sees it. The reply to a call may
depend on every call made before it (the first argument); an `Option String`
reply is the error, if any. `Listen` is the outcome of binding each port,
`timestamp` and `pid` are the texts of `time.Now().Format(...)` and of
`os.Getpid()`, `duration` the time a call takes in nanoseconds. -/
structure Host where
  Listen : Nat → Option String
  ReadDir : List HostCall → String → Listing
  RemoveAll : List HostCall → String → Option String
  Abs : List HostCall → String → Except String String
  MkdirAll : List HostCall → String → Option String
  NewChromeDriverService : List HostCall → String → Nat → Option String
  Dial : List HostCall → Nat → Option String
  NewRemote : List HostCall → Nat → Option String
  SetImplicitWaitTimeout : List HostCall → Int → Option String
  SetPageLoadTimeout : List HostCall → Int → Option String
  timestamp : String
  pid : String
  duration : List HostCall → HostCall → Nat

/-- A start-up in progress: the calls made so far and the reading of the
clock in nanoseconds. -/
structure Boot where
  trace : List HostCall
  now : Int
  deriving DecidableEq, Repr

/-- The start-up after call `c`. -/
def Boot.step (host : Host) (c : HostCall) (b : Boot) : Boot :=
  ⟨b.trace ++ [c], b.now + host.duration b.trace c⟩

/-- The start-up after `time.Sleep(n)`. -/
def Boot.sleep (n : Nat) (b : Boot) : Boot := ⟨b.trace, b.now + n⟩

/-- The call `filepath.Join(dir, name)` for a plain name. -/
def joinPath (dir name : String) : String := dir ++ "/" ++ name

/-! ## `cleanOldSessions` -/

/-- The threshold the code compares with, `24 * time.Second`, in
nanoseconds. -/
def retention : Int := 24 * 1000000000

/-- The loop of `cleanOldSessions`: an entry that is no directory is
skipped; a directory with `time.Since(file.ModTime()) > 24*time.Second` is
removed with `os.RemoveAll`, whose error is only logged. -/
def cleanLoop (host : Host) (baseDir : String) : List FileInfo → Boot → Boot
  | [], b => b
  | file :: rest, b =>
    if !file.IsDir then cleanLoop host baseDir rest b
    else if b.now - file.ModTime > retention then
      cleanLoop host baseDir rest (b.step host (HostCall.RemoveAll (joinPath baseDir file.Name)))
    else cleanLoop host baseDir rest b

/-- The function `cleanOldSessions`. -/
def cleanOldSessions (host : Host) (baseDir : String) (b : Boot) : Option String × Boot :=
  let b1 := b.step host (HostCall.ReadDir baseDir)
  match host.ReadDir b.trace baseDir with
  | Listing.notExist => (none, b1)
  | Listing.failed err => (some ("failed to read directory: " ++ err), b1)
  | Listing.entries files => (none, cleanLoop host baseDir files b1)

/-! ## `waitForPort` -/

/-- The interval between two connection attempts, `100 * time.Millisecond`. -/
def dialInterval : Nat := 100000000

/-- The loop of `waitForPort`: while the clock is before the deadline, dial
the port, return `true` when the connection is made, else sleep. `false` is
leaving the loop at the deadline, the outer `none` running out of `fuel`. -/
def dialLoop (host : Host) (port : Nat) (deadline : Int) : Nat → Boot → Option (Bool × Boot)
  | 0, _ => none
  | fuel + 1, b =>
    if b.now < deadline then
      match host.Dial b.trace port with
      | none => some (true, b.step host (HostCall.Dial port))
      | some _ =>
        dialLoop host port deadline fuel
          (Boot.sleep dialInterval (b.step host (HostCall.Dial port)))
    else some (false, b)

/-- The function `waitForPort`; every turn sleeps 100 ms, so
`timeout / 100ms + 1` turns pass the deadline. -/
def waitForPort (host : Host) (port : Nat) (timeout : Int) (b : Boot) : Option String × Boot :=
  match dialLoop host port (b.now + timeout) (timeout.toNat / dialInterval + 2) b with
  | some (true, b') => (none, b')
  | some (false, b') => (some ("timeout waiting for port " ++ toString port), b')
  | none => (some ("timeout waiting for port " ++ toString port), b)

/-! ## `NewWhatsAppClient` -/

/-- Lines 174-205 of `NewWhatsAppClient`, after the driver service was
started on `port`: wait for the port, open the remote session, set the two
timeouts; on each failure the clean-up calls of the source, then the error. -/
def connect (host : Host) (port : Nat) (b : Boot) : Option String × Boot :=
  match waitForPort host port (10 * 1000000000) b with
  | (some err, b1) => (some ("ChromeDriver not ready: " ++ err), b1.step host HostCall.Stop)
  | (none, b1) =>
    let b2 := b1.step host (HostCall.NewRemote port)
    match host.NewRemote b1.trace port with
    | some err => (some ("failed to create WebDriver: " ++ err), b2.step host HostCall.Stop)
    | none =>
      let b3 := b2.step host (HostCall.SetImplicitWaitTimeout defaultTimeout)
      match host.SetImplicitWaitTimeout b2.trace defaultTimeout with
      | some err =>
        (some ("failed to set implicit wait timeout: " ++ err),
          (b3.step host HostCall.Quit).step host HostCall.Stop)
      | none =>
        let b4 := b3.step host (HostCall.SetPageLoadTimeout defaultTimeout)
        match host.SetPageLoadTimeout b3.trace defaultTimeout with
        | some err =>
          (some ("failed to set page load timeout: " ++ err),
            (b4.step host HostCall.Quit).step host HostCall.Stop)
        | none => (none, b4)

/-- Lines 84-172 of `NewWhatsAppClient`, up to the start of the driver
service: the port found and the run so far, or the error. -/
def launch (host : Host) (b : Boot) : Except String Nat × Boot :=
  match findFreePort host.Listen with
  | .error err => (.error ("failed to find free port: " ++ err), b)
  | .ok port =>
    let baseDir := "chrome_data"
    let b1 := (cleanOldSessions host baseDir b).2
    let sessionDir := "session_" ++ host.timestamp ++ "_" ++ host.pid
    let b2 := b1.step host (HostCall.Abs (joinPath baseDir sessionDir))
    match host.Abs b1.trace (joinPath baseDir sessionDir) with
    | .error err => (.error ("failed to get absolute path: " ++ err), b2)
    | .ok userDataDir =>
      let b3 := b2.step host (HostCall.RemoveAll userDataDir)
      match host.RemoveAll b2.trace userDataDir with
      | some err => (.error ("failed to remove existing user data directory: " ++ err), b3)
      | none =>
        let b4 := b3.step host (HostCall.MkdirAll userDataDir)
        match host.MkdirAll b3.trace userDataDir with
        | some err => (.error ("failed to create user data directory: " ++ err), b4)
        | none =>
          let chromeDriverPath := joinPath "driver" "chromedriver.exe"
          let b5 := b4.step host (HostCall.NewChromeDriverService chromeDriverPath port)
          match host.NewChromeDriverService b4.trace chromeDriverPath port with
          | some err => (.error ("failed to start ChromeDriver: " ++ err), b5)
          | none => (.ok port, b5)

/-- The function `NewWhatsAppClient`: the error, if any (`none` when the
client is returned), and the run. -/
def NewWhatsAppClient (host : Host) (b : Boot) : Option String × Boot :=
  match launch host b with
  | (.error err, b1) => (some err, b1)
  | (.ok port, b1) => connect host port b1

/-! ## `SendMessage` -/

/-- The library constant `selenium.EnterKey`. -/
def EnterKey : String := "\uE007"

/-- The locator of the message composer. -/
def composer : String := "div[contenteditable='true']"

/-- The method `WhatsAppClient.SendMessage`. -/
def SendMessage (d : Driver) (phoneNumber message : String) (r : Run) : Option String × Run :=
  let url := whatsappURL ++ "/send?phone=" ++ phoneNumber
  let r1 := step d (Call.Get url) r
  match d.Get r.trace url with
  | some err => (some ("failed to open chat: " ++ err), r1)
  | none =>
    match waitForElement d ByCSSSelector composer defaultTimeout r1 with
    | (.error err, r2) => (some ("failed to find message input: " ++ err), r2)
    | (.ok input, r2) =>
      let r3 := step d (Call.SendKeys input message) r2
      match d.SendKeys r2.trace input message with
      | some err => (some ("failed to input message: " ++ err), r3)
      | none =>
        let r4 := step d (Call.SendKeys input EnterKey) r3
        match d.SendKeys r3.trace input EnterKey with
        | some err => (some ("failed to send message: " ++ err), r4)
        | none => (none, r4)

/-! ## Sample machines -/

/-- A machine on which everything succeeds at once: every port binds, the
profile directory does not exist yet, the driver service starts and accepts
connections. -/
def readyHost : Host :=
  { Listen := fun _ => none
    ReadDir := fun _ _ => Listing.notExist
    RemoveAll := fun _ _ => none
    Abs := fun _ path => .ok ("C:/app/" ++ path)
    MkdirAll := fun _ _ => none
    NewChromeDriverService := fun _ _ _ => none
    Dial := fun _ _ => none
    NewRemote := fun _ _ => none
    SetImplicitWaitTimeout := fun _ _ => none
    SetPageLoadTimeout := fun _ _ => none
    timestamp := "20240102_030405"
    pid := "4242"
    duration := fun _ _ => 0 }

/-- A machine on which the driver service starts but its port never accepts
a connection: every dial fails after its timeout of one second. -/
def deafHost : Host :=
  { readyHost with
    Dial := fun _ _ => some "connection refused"
    duration := fun _ c =>
      match c with
      | HostCall.Dial _ => 1000000000
      | _ => 0 }

/-- A machine on which ports 9515 and 9516 are taken. -/
def busyHost : Host :=
  { readyHost with Listen := fun p => if p < 9517 then some "address already in use" else none }

/-- The start of a start-up: no call made, clock at zero. -/
def boot : Boot := ⟨[], 0⟩

/-- A listing of the profile directory read at clock 100 s: a directory
modified 60 seconds before, a directory modified 10 seconds before, a
regular file modified 90 seconds before, and a directory modified 25 hours
before. -/
def sampleListing : List FileInfo :=
  [⟨"session_a", true, 40000000000⟩, ⟨"session_b", true, 90000000000⟩,
    ⟨"notes.txt", false, 10000000000⟩, ⟨"session_c", true, 100000000000 - 90000000000000⟩]

/-- A machine whose profile directory holds `sampleListing`. -/
def janitorHost : Host :=
  { readyHost with ReadDir := fun _ _ => Listing.entries sampleListing }

/-! ## Notions used in the statements on `SendMessage` and `RestoreSession` -/

/-- A call of the wait for locator `(strategy, value)`: a find-element with
that locator or an is-displayed. -/
def isPoll (strategy value : String) (c : Call) : Prop :=
  c = Call.FindElement strategy value ∨ ∃ e, c = Call.IsDisplayed e

/-- The JSON value of a `[key, value]` pair of strings. -/
def pairValue (kv : String × String) : Value :=
  Value.array [Value.string kv.1, Value.string kv.2]

/-- The statement that replays one pair. -/
def setItem (kv : String × String) : String :=
  "localStorage.setItem('" ++ kv.1 ++ "', '" ++ kv.2 ++ "');"

/-- The statements that replay the pairs, in list order. -/
def setItems : List (String × String) → String
  | [] => ""
  | kv :: rest => setItem kv ++ setItems rest

/-- The storage script as specified: the clear, then one `setItem` per pair
in list order. -/
def replayScript (pairs : List (String × String)) : String :=
  "localStorage.clear();" ++ setItems pairs

/-- A browser that cannot reach the application: navigation fails. -/
def offlineDriver : Driver :=
  { idleDriver with Get := fun _ _ => some "net::ERR_INTERNET_DISCONNECTED" }

/-- Session data with no cookie and the two storage pairs
`["WAToken1", "a"]`, `["WAToken2", "b"]`. -/
def twoPairs : SessionData :=
  SessionData.document (Value.object [("cookies", Value.array []),
    ("localStorage", Value.array [pairValue ("WAToken1", "a"), pairValue ("WAToken2", "b")])])

/-- Session data whose local storage holds the pair `[1, 2]`. -/
def numberPair : SessionData :=
  SessionData.document (Value.object
    [("localStorage", Value.array [Value.array [Value.number 1, Value.number 2]])])

/-- Session data whose local storage holds the pair `["k", null]`. -/
def nullPair : SessionData :=
  SessionData.document (Value.object
    [("localStorage", Value.array [Value.array [Value.string "k", Value.null]])])

/-- A browser that shows the message composer as element 3. -/
def chatDriver : Driver :=
  { idleDriver with
    FindElement := fun _ _ _ => .ok 3
    IsDisplayed := fun _ _ => .ok true }

end selenium

/-! # Theorems -/

namespace repository

/-! ### Lemmas on the encoding -/

theorem coerceFrom_of_validFrom (s : Bytes) :
    ∀ k, validFrom k s = true → coerceFrom k s = s := by
  induction s with
  | nil => intro k _; cases k <;> rfl
  | cons b rest ih =>
    intro k h
    cases k with
    | zero =>
      cases hr : runeLen (b :: rest) with
      | zero => simp [validFrom, hr] at h
      | succ n =>
        simp only [validFrom, hr] at h
        simp only [coerceFrom, hr, ih n h]
    | succ k =>
      simp only [validFrom] at h
      simp only [coerceFrom, ih k h]

theorem jsonString_of_valid (s : Bytes) (h : validUTF8 s = true) : jsonString s = s :=
  coerceFrom_of_validFrom s 0 h

/-- ASCII text, such as the identity `uuid.New().String()` gives, is valid
UTF-8. -/
theorem validUTF8_of_ascii (s : Bytes) (h : ∀ b ∈ s, b < 0x80) : validUTF8 s = true := by
  unfold validUTF8
  induction s with
  | nil => rfl
  | cons b rest ih =>
    have hb : b < 0x80 := h b (List.mem_cons_self _ _)
    have hr : runeLen (b :: rest) = 1 := by simp [runeLen, hb]
    simp only [validFrom, hr]
    exact ih (fun c hc => h c (List.mem_cons_of_mem _ hc))

theorem Time.unmarshalJSON_marshalJSON (t : Time) (ts : Timestamp)
    (hm : t.MarshalJSON = some ts) (hz : t.wholeMinuteZone = true) :
    Time.UnmarshalJSON ts = some t.stripMonotonic := by
  have hdvd : (60 : Int) ∣ t.offset := by
    simp only [Time.wholeMinuteZone, decide_eq_true_eq] at hz
    exact Int.dvd_of_emod_eq_zero hz
  have hcancel : Int.tdiv t.offset 60 * 60 = t.offset := Int.tdiv_mul_cancel hdvd
  unfold Time.MarshalJSON at hm
  simp only at hm
  split_ifs at hm with h1 h2 h3
  · cases hm
    simp only [Time.UnmarshalJSON, h1, if_false, Time.stripMonotonic]
    congr 2
    · omega
    · exact h2.symm
  · cases hm
    simp only [Time.UnmarshalJSON, h1, h3, if_false, Time.stripMonotonic, hcancel]
    congr 2
    have : Int.tdiv t.offset 60 * 60 * 1000000000 = t.offset * 1000000000 := by rw [hcancel]
    omega

theorem unmarshalCookie_marshalCookie (c : Cookie) (j : CookieJSON)
    (hm : marshalCookie c = some j) (hv : c.validText = true)
    (hz : c.Expires.wholeMinuteZone = true) :
    unmarshalCookie j = some c.stripMonotonic := by
  unfold marshalCookie at hm
  cases ht : c.Expires.MarshalJSON with
  | none => simp [ht] at hm
  | some ts =>
    simp only [ht, Option.some.injEq] at hm
    subst hm
    simp only [Cookie.validText, Bool.and_eq_true] at hv
    obtain ⟨⟨⟨h1, h2⟩, h3⟩, h4⟩ := hv
    simp only [unmarshalCookie, Time.unmarshalJSON_marshalJSON _ _ ht hz, jsonString_of_valid _ h1,
      jsonString_of_valid _ h2, jsonString_of_valid _ h3, jsonString_of_valid _ h4,
      Cookie.stripMonotonic]

theorem mapAll_unmarshalCookie (cs : List Cookie) :
    ∀ js : List CookieJSON, mapAll marshalCookie cs = some js →
      cs.all Cookie.validText = true →
      cs.all (fun c => c.Expires.wholeMinuteZone) = true →
      mapAll unmarshalCookie js = some (cs.map Cookie.stripMonotonic) := by
  induction cs with
  | nil =>
    intro js hm _ _
    simp only [mapAll, Option.some.injEq] at hm
    subst hm
    rfl
  | cons c cs ih =>
    intro js hm hv hz
    simp only [List.all_cons, Bool.and_eq_true] at hv hz
    simp only [mapAll] at hm
    cases hj : marshalCookie c with
    | none => simp [hj] at hm
    | some j =>
      cases hjs : mapAll marshalCookie cs with
      | none => simp [hj, hjs] at hm
      | some js1 =>
        simp only [hj, hjs, Option.some.injEq] at hm
        subst hm
        simp only [mapAll, unmarshalCookie_marshalCookie c j hj hv.1 hz.1,
          ih js1 hjs hv.2 hz.2, List.map_cons]

theorem map_unmarshalStorage (es : List Storage) (hv : es.all Storage.validText = true) :
    (es.map marshalStorage).map unmarshalStorage = es := by
  induction es with
  | nil => rfl
  | cons e es ih =>
    simp only [List.all_cons, Bool.and_eq_true, Storage.validText] at hv
    obtain ⟨⟨h1, h2⟩, h3⟩ := hv
    simp only [List.map_cons, ih h3, marshalStorage, unmarshalStorage,
      jsonString_of_valid _ h1, jsonString_of_valid _ h2]

theorem unmarshal_marshal (s : Session) (doc : SessionJSON) (hm : marshal s = some doc)
    (hv : s.validText = true) (hz : s.wholeMinuteZones = true) :
    unmarshal doc = some s.stripMonotonic := by
  obtain ⟨id, cookies, storage, created, updated⟩ := s
  simp only [Session.validText, Bool.and_eq_true] at hv
  obtain ⟨⟨hid, hcs⟩, hst⟩ := hv
  simp only [Session.wholeMinuteZones, Bool.and_eq_true] at hz
  obtain ⟨⟨hc, hu⟩, hzs⟩ := hz
  unfold marshal at hm
  cases h1 : marshalCookies cookies with
  | none => simp [h1] at hm
  | some cs =>
    cases h2 : created.MarshalJSON with
    | none => simp [h1, h2] at hm
    | some tc =>
      cases h3 : updated.MarshalJSON with
      | none => simp [h1, h2, h3] at hm
      | some tu =>
        simp only [h1, h2, h3, Option.some.injEq] at hm
        subst hm
        have hcs2 : unmarshalCookies cs = some (cookies.map (List.map Cookie.stripMonotonic)) := by
          cases cookies with
          | none =>
            simp only [marshalCookies, Option.some.injEq] at h1
            subst h1
            rfl
          | some l =>
            simp only [marshalCookies] at h1
            cases h4 : mapAll marshalCookie l with
            | none => simp [h4] at h1
            | some js =>
              simp only [h4, Option.some.injEq] at h1
              subst h1
              simp only [Option.getD_some] at hcs hzs
              simp only [unmarshalCookies, mapAll_unmarshalCookie l js h4 hcs hzs, Option.map_some']
        have hst2 : (storage.map (List.map marshalStorage)).map (List.map unmarshalStorage)
            = storage := by
          cases storage with
          | none => rfl
          | some l =>
            simp only [Option.getD_some] at hst
            simp only [Option.map_some', map_unmarshalStorage l hst]
        simp only [unmarshal, hcs2, Time.unmarshalJSON_marshalJSON _ _ h2 hc,
          Time.unmarshalJSON_marshalJSON _ _ h3 hu, hst2, jsonString_of_valid _ hid,
          Session.stripMonotonic]

theorem stripMonotonic_of_noMonotonic (s : Session) (h : s.noMonotonic = true) :
    s.stripMonotonic = s := by
  obtain ⟨id, cookies, storage, created, updated⟩ := s
  simp only [Session.noMonotonic, Bool.and_eq_true, Option.isNone_iff_eq_none] at h
  obtain ⟨⟨hc, hu⟩, hcs⟩ := h
  have e1 : created.stripMonotonic = created := by
    cases created; simp_all [Time.stripMonotonic]
  have e2 : updated.stripMonotonic = updated := by
    cases updated; simp_all [Time.stripMonotonic]
  have e3 : cookies.map (List.map Cookie.stripMonotonic) = cookies := by
    cases cookies with
    | none => rfl
    | some l =>
      simp only [Option.getD_some, List.all_eq_true, Option.isNone_iff_eq_none] at hcs
      simp only [Option.map_some', Option.some.injEq]
      conv_rhs => rw [← List.map_id l]
      apply List.map_congr_left
      intro c hc
      obtain ⟨n, v, d, p, ⟨u, o, m⟩, sec, ho⟩ := c
      have := hcs _ hc
      simp only at this
      subst this
      rfl
  simp only [Session.stripMonotonic, e1, e2, e3]

/-- C1 (as stated, refuted): three records that `Save` stores successfully
and `GetByID` returns changed: an identity that is no UTF-8 text comes back
as U+FFFD, the timestamps of a record made with `time.Now()` come back
without their monotonic reading, and a creation time in a zone 30 seconds
east of UTC comes back as another instant. -/
theorem Save_GetByID_changes_record :
    ((Save storageDir emptyDisk badIdentity).1 = none ∧
      GetByID storageDir (Save storageDir emptyDisk badIdentity).2 badIdentity.ID
        = .ok (some { badIdentity with ID := [0xEF, 0xBF, 0xBD] }) ∧
      ({ badIdentity with ID := [0xEF, 0xBF, 0xBD] } : Session) ≠ badIdentity) ∧
    ((Save storageDir emptyDisk freshSession).1 = none ∧
      GetByID storageDir (Save storageDir emptyDisk freshSession).2 freshSession.ID
        = .ok (some freshSession.stripMonotonic) ∧
      freshSession.stripMonotonic ≠ freshSession) ∧
    ((Save storageDir emptyDisk oddZone).1 = none ∧
      GetByID storageDir (Save storageDir emptyDisk oddZone).2 oddZone.ID
        = .ok (some { oddZone with CreatedAt := ⟨30000000000, 0, none⟩ }) ∧
      Time.Equal ⟨30000000000, 0, none⟩ oddZone.CreatedAt = false) := by
  refine ⟨⟨by decide, by rfl, by decide⟩, ⟨by decide, by rfl, by decide⟩,
    ⟨by decide, by rfl, by decide⟩⟩

/-- C1 (amended): for every record whose strings are valid UTF-8 and whose
timestamps have zone offsets of whole minutes, after a successful `Save` the
call `GetByID` with the identity of the record returns the record with the
same identity, cookies, storage entries, and timestamps of the same instant
and zone offset, the monotonic clock readings removed; the record itself
when no timestamp carries such a reading. -/
theorem Save_GetByID_roundtrip (storagePath : Bytes) (disk : Disk) (s : Session)
    (hsave : (Save storagePath disk s).1 = none)
    (hv : s.validText = true) (hz : s.wholeMinuteZones = true) :
    GetByID storagePath (Save storagePath disk s).2 s.ID = .ok (some s.stripMonotonic) ∧
      (s.noMonotonic = true →
        GetByID storagePath (Save storagePath disk s).2 s.ID = .ok (some s)) := by
  have key : GetByID storagePath (Save storagePath disk s).2 s.ID
      = .ok (some s.stripMonotonic) := by
    unfold Save at hsave ⊢
    cases hm : marshal s with
    | none => simp [hm] at hsave
    | some doc =>
      simp only [hm] at hsave ⊢
      cases hw : disk.writable (filePath storagePath s.ID) with
      | false => simp [hw] at hsave
      | true =>
        simp only [if_true, GetByID, unmarshal_marshal s doc hm hv hz]
  refine ⟨key, fun hn => ?_⟩
  rw [key, stripMonotonic_of_noMonotonic s hn]

/-- Witness of `Save_GetByID_roundtrip`: a record with a cookie and a storage
entry is stored on the empty disk and read back unchanged. -/
theorem Save_GetByID_roundtrip_witness :
    (Save storageDir emptyDisk sampleSession).1 = none ∧
    sampleSession.validText = true ∧ sampleSession.wholeMinuteZones = true ∧
    sampleSession.noMonotonic = true ∧
    GetByID storageDir (Save storageDir emptyDisk sampleSession).2 sampleSession.ID
      = .ok (some sampleSession) :=
  ⟨by decide, by decide, by decide, by decide,
    (Save_GetByID_roundtrip storageDir emptyDisk sampleSession (by decide) (by decide)
      (by decide)).2 (by decide)⟩

end repository

namespace selenium

/-! ### The run and the wait loop -/

@[simp] theorem step_trace (d : Driver) (c : Call) (r : Run) :
    (step d c r).trace = r.trace ++ [c] := rfl

@[simp] theorem step_now (d : Driver) (c : Call) (r : Run) :
    (step d c r).now = r.now + d.duration r.trace c := rfl

@[simp] theorem sleep_trace (n : Nat) (r : Run) : (sleep n r).trace = r.trace := rfl

@[simp] theorem sleep_now (n : Nat) (r : Run) : (sleep n r).now = r.now + n := rfl

/-- What the loop does from run `r` with enough fuel: it ends at a poll that
started before the deadline and found the element displayed, or it ends
without element once the clock has reached the deadline. -/
theorem waitLoop_spec (d : Driver) (strategy value : String) (deadline : Int) :
    ∀ (fuel : Nat) (r : Run), deadline - r.now ≤ (fuel : Int) * pollInterval →
      (∃ e r1 ext, r1.trace = r.trace ++ ext ∧ r.now ≤ r1.now ∧ r1.now < deadline ∧
        d.FindElement r1.trace strategy value = .ok e ∧
        d.IsDisplayed (r1.trace ++ [Call.FindElement strategy value]) e = .ok true ∧
        waitLoop d strategy value deadline (fuel + 1) r
          = some (some e, step d (Call.IsDisplayed e)
              (step d (Call.FindElement strategy value) r1))) ∨
      (∃ r', waitLoop d strategy value deadline (fuel + 1) r = some (none, r') ∧
        deadline ≤ r'.now ∧ r.now ≤ r'.now) := by
  intro fuel
  induction fuel with
  | zero =>
    intro r h
    right
    refine ⟨r, ?_, by simp at h; omega, le_refl _⟩
    have : ¬ (r.now < deadline) := by simp at h; omega
    simp [waitLoop, this]
  | succ f ih =>
    intro r h
    by_cases hlt : r.now < deadline
    · -- one more poll
      have next : ∀ r2 : Run, r.now + pollInterval ≤ r2.now →
          (∃ ext, r2.trace = r.trace ++ ext) →
          waitLoop d strategy value deadline (f + 1 + 1) r
            = waitLoop d strategy value deadline (f + 1) r2 →
          (∃ e r1 ext, r1.trace = r.trace ++ ext ∧ r.now ≤ r1.now ∧ r1.now < deadline ∧
            d.FindElement r1.trace strategy value = .ok e ∧
            d.IsDisplayed (r1.trace ++ [Call.FindElement strategy value]) e = .ok true ∧
            waitLoop d strategy value deadline (f + 1 + 1) r
              = some (some e, step d (Call.IsDisplayed e)
                  (step d (Call.FindElement strategy value) r1))) ∨
          (∃ r', waitLoop d strategy value deadline (f + 1 + 1) r = some (none, r') ∧
            deadline ≤ r'.now ∧ r.now ≤ r'.now) := by
        intro r2 hnow ⟨ext2, hext2⟩ heq
        have hfuel : deadline - r2.now ≤ (f : Int) * pollInterval := by
          simp only [pollInterval] at *
          push_cast at h
          omega
        rcases ih r2 hfuel with ⟨e, r1, ext, h1, h2, h3, h4, h5, h6⟩ | ⟨r', h1, h2, h3⟩
        · left
          refine ⟨e, r1, ext2 ++ ext, ?_, ?_, h3, h4, h5, ?_⟩
          · rw [h1, hext2, List.append_assoc]
          · simp only [pollInterval] at hnow; omega
          · rw [heq, h6]
        · right
          refine ⟨r', ?_, h2, ?_⟩
          · rw [heq, h1]
          · simp only [pollInterval] at hnow; omega
      cases hf : d.FindElement r.trace strategy value with
      | error err =>
        apply next (sleep pollInterval (step d (Call.FindElement strategy value) r))
        · simp
        · exact ⟨[Call.FindElement strategy value], by simp⟩
        · conv_lhs => rw [waitLoop]
          simp only [hlt, if_true, hf]
      | ok e =>
        cases hd : d.IsDisplayed (r.trace ++ [Call.FindElement strategy value]) e with
        | error err =>
          apply next (sleep pollInterval (step d (Call.IsDisplayed e)
            (step d (Call.FindElement strategy value) r)))
          · simp only [sleep_now, step_now, step_trace]; omega
          · exact ⟨[Call.FindElement strategy value, Call.IsDisplayed e], by simp⟩
          · conv_lhs => rw [waitLoop]
            simp only [hlt, if_true, hf, step_trace, hd]
        | ok b =>
          cases b with
          | false =>
            apply next (sleep pollInterval (step d (Call.IsDisplayed e)
              (step d (Call.FindElement strategy value) r)))
            · simp only [sleep_now, step_now, step_trace]; omega
            · exact ⟨[Call.FindElement strategy value, Call.IsDisplayed e], by simp⟩
            · conv_lhs => rw [waitLoop]
              simp only [hlt, if_true, hf, step_trace, hd]
          | true =>
            left
            refine ⟨e, r, [], by simp, le_refl _, hlt, hf, hd, ?_⟩
            conv_lhs => rw [waitLoop]
            simp only [hlt, if_true, hf, step_trace, hd]
    · right
      refine ⟨r, ?_, by omega, le_refl _⟩
      conv_lhs => rw [waitLoop]
      simp only [hlt, if_false]

/-- When no call takes longer than `D`, a loop that ends without element
ends where it started or within one poll and one sleep of the deadline. -/
theorem waitLoop_deadline_bound (d : Driver) (strategy value : String) (deadline : Int)
    (D : Nat) (hD : ∀ h c, d.duration h c ≤ D) :
    ∀ (fuel : Nat) (r r' : Run), waitLoop d strategy value deadline fuel r = some (none, r') →
      r'.now = r.now ∨ r'.now < deadline + 2 * D + pollInterval := by
  intro fuel
  induction fuel with
  | zero => intro r r' h; simp [waitLoop] at h
  | succ f ih =>
    intro r r' h
    rw [waitLoop] at h
    by_cases hlt : r.now < deadline
    · simp only [hlt, if_true] at h
      have h1 := hD r.trace (Call.FindElement strategy value)
      cases hf : d.FindElement r.trace strategy value with
      | error err =>
        simp only [hf] at h
        right
        rcases ih _ _ h with h2 | h2
        · simp only [sleep_now, step_now, pollInterval] at h2 ⊢; omega
        · exact h2
      | ok e =>
        simp only [hf, step_trace] at h
        have h3 := hD (r.trace ++ [Call.FindElement strategy value]) (Call.IsDisplayed e)
        have rest : waitLoop d strategy value deadline f
            (sleep pollInterval (step d (Call.IsDisplayed e)
              (step d (Call.FindElement strategy value) r))) = some (none, r') →
            r'.now = r.now ∨ r'.now < deadline + 2 * D + pollInterval := by
          intro h
          right
          rcases ih _ _ h with h2 | h2
          · simp only [sleep_now, step_now, step_trace, pollInterval] at h2 ⊢; omega
          · exact h2
        cases hd : d.IsDisplayed (r.trace ++ [Call.FindElement strategy value]) e with
        | error err => simp only [hd] at h; exact rest h
        | ok b =>
          cases b with
          | false => simp only [hd] at h; exact rest h
          | true => simp [hd] at h
    · simp only [hlt, if_false, Option.some.injEq, Prod.mk.injEq, true_and] at h
      left; rw [h]

theorem waitFuel_enough (timeout : Int) (now : Int) :
    now + timeout - now ≤ ((waitFuel timeout - 1 : Nat) : Int) * pollInterval := by
  simp only [waitFuel, pollInterval, Nat.add_sub_cancel]
  have h := Nat.div_add_mod timeout.toNat 500000000
  have h2 := Nat.mod_lt timeout.toNat (by decide : 500000000 > 0)
  have h3 : timeout ≤ timeout.toNat := Int.self_le_toNat timeout
  push_cast
  omega

/-- C8: `waitForElement` returns an element only from a poll that started
before the deadline, at which find-element succeeded with that element and
is-displayed on it returned true without error; otherwise every poll was
passed over, the clock has reached the deadline, and the result is the one
error "element not found or not visible after ...", never the error of a
poll. -/
theorem waitForElement_polls (d : Driver) (strategy value : String) (timeout : Int) (r : Run) :
    (∃ e r1 ext, r1.trace = r.trace ++ ext ∧ r.now ≤ r1.now ∧
      r1.now < r.now + timeout ∧
      d.FindElement r1.trace strategy value = .ok e ∧
      d.IsDisplayed (r1.trace ++ [Call.FindElement strategy value]) e = .ok true ∧
      waitForElement d strategy value timeout r
        = (.ok e, step d (Call.IsDisplayed e) (step d (Call.FindElement strategy value) r1))) ∨
    (∃ r', waitForElement d strategy value timeout r = (.error (notFound d timeout), r') ∧
      r.now + timeout ≤ r'.now) := by
  have hfuel := waitFuel_enough timeout r.now
  have hw : waitFuel timeout = (waitFuel timeout - 1) + 1 := by simp [waitFuel]
  rcases waitLoop_spec d strategy value (r.now + timeout) (waitFuel timeout - 1) r hfuel
    with ⟨e, r1, ext, h1, h2, h3, h4, h5, h6⟩ | ⟨r', h1, h2, _⟩
  · left
    refine ⟨e, r1, ext, h1, h2, h3, h4, h5, ?_⟩
    rw [← hw] at h6
    simp only [waitForElement, h6]
  · right
    refine ⟨r', ?_, h2⟩
    rw [← hw] at h1
    simp only [waitForElement, h1]

/-- Polls that fail do not end the wait: on a browser where the element
appears at the third poll, the first two polls are passed over, each
followed by a sleep, and the element of the third poll is returned one
second after the start. -/
theorem waitForElement_late_element :
    waitForElement lateDriver ByCSSSelector "canvas" defaultTimeout start
      = (.ok 7, ⟨[Call.FindElement ByCSSSelector "canvas",
          Call.FindElement ByCSSSelector "canvas", Call.FindElement ByCSSSelector "canvas",
          Call.IsDisplayed 7], 1000000000⟩) :=
  rfl

/-- C9 (as stated, refuted): with a timeout of one second and a find-element
call that takes the implicit wait of 30 seconds, `waitForElement` returns
its error 30.5 seconds after it started, later than the timeout plus one
poll interval. -/
theorem waitForElement_overruns :
    (waitForElement slowDriver ByCSSSelector "canvas" 1000000000 start).1
      = .error (notFound slowDriver 1000000000) ∧
    (waitForElement slowDriver ByCSSSelector "canvas" 1000000000 start).2.now = 30500000000 ∧
    ¬ ((waitForElement slowDriver ByCSSSelector "canvas" 1000000000 start).2.now - start.now
        ≤ 1000000000 + pollInterval) := by
  refine ⟨by rfl, by rfl, by decide⟩

/-- C9 (amended): for every timeout `t >= 0` and every locator that never
becomes visible, when no driver call takes longer than `D`, `waitForElement`
returns its not-found error at an elapsed time `T` with
`t <= T <= t + 500 ms + 2 * D`. -/
theorem waitForElement_elapsed (d : Driver) (strategy value : String) (timeout : Int) (r : Run)
    (D : Nat) (ht : 0 ≤ timeout)
    (hnever : ∀ h e, d.FindElement h strategy value = .ok e →
      d.IsDisplayed (h ++ [Call.FindElement strategy value]) e ≠ .ok true)
    (hD : ∀ h c, d.duration h c ≤ D) :
    ∃ r', waitForElement d strategy value timeout r = (.error (notFound d timeout), r') ∧
      timeout ≤ r'.now - r.now ∧
      r'.now - r.now ≤ timeout + pollInterval + 2 * D := by
  have hfuel := waitFuel_enough timeout r.now
  have hw : waitFuel timeout = (waitFuel timeout - 1) + 1 := by simp [waitFuel]
  rcases waitLoop_spec d strategy value (r.now + timeout) (waitFuel timeout - 1) r hfuel
    with ⟨e, r1, ext, _, _, _, h4, h5, _⟩ | ⟨r', h1, h2, _⟩
  · exact absurd h5 (hnever r1.trace e h4)
  · rw [← hw] at h1
    refine ⟨r', by simp only [waitForElement, h1], by omega, ?_⟩
    rcases waitLoop_deadline_bound d strategy value _ D hD _ r r' h1 with h3 | h3
    · rw [h3]; simp only [pollInterval]; omega
    · omega

/-- Witness of `waitForElement_elapsed`: on the idle browser, whose calls
take no time, a wait of one second ends between 1 s and 1.5 s. -/
theorem waitForElement_elapsed_witness :
    ∃ r', waitForElement idleDriver ByCSSSelector "canvas" 1000000000 start
        = (.error (notFound idleDriver 1000000000), r') ∧
      (1000000000 : Int) ≤ r'.now - start.now ∧
      r'.now - start.now ≤ 1000000000 + pollInterval + 2 * (0 : Nat) :=
  waitForElement_elapsed idleDriver ByCSSSelector "canvas" 1000000000 start 0 (by decide)
    (fun _ _ hf => by simp [idleDriver] at hf) (fun _ _ => le_refl _)

/-! ### `GetQRCode` -/

theorem qrData_firstSuccess (d : Driver) (e : Element) (r : Run) :
    (qrData d e r).1.toOption
      = firstSuccess [attributeStrategy d r.trace e "data-url",
          attributeStrategy d (r.trace ++ [Call.GetAttribute e "data-url"]) e "src",
          canvasStrategy d
            (r.trace ++ [Call.GetAttribute e "data-url"] ++ [Call.GetAttribute e "src"]) e] ∧
    ((∃ err, (qrData d e r).1 = .error err) ↔
      attributeStrategy d r.trace e "data-url" = none ∧
      attributeStrategy d (r.trace ++ [Call.GetAttribute e "data-url"]) e "src" = none ∧
      canvasStrategy d
        (r.trace ++ [Call.GetAttribute e "data-url"] ++ [Call.GetAttribute e "src"]) e = none) ∧
    (qrData d e r).2.trace
      = r.trace ++ [Call.GetAttribute e "data-url"] ++
        (if (attributeStrategy d r.trace e "data-url").isSome then []
         else [Call.GetAttribute e "src"] ++
          (if (attributeStrategy d (r.trace ++ [Call.GetAttribute e "data-url"]) e "src").isSome
           then [] else [Call.ExecuteScript canvasScript [e]])) := by
  unfold qrData attributeStrategy canvasStrategy
  cases ha : d.GetAttribute r.trace e "data-url" with
  | ok s => simp [Except.toOption, firstSuccess]
  | error err =>
    simp only [step_trace]
    cases hb : d.GetAttribute (r.trace ++ [Call.GetAttribute e "data-url"]) e "src" with
    | ok s => simp [Except.toOption, firstSuccess]
    | error err =>
      cases hc : d.ExecuteScript
          (r.trace ++ [Call.GetAttribute e "data-url"] ++ [Call.GetAttribute e "src"])
          canvasScript [e] with
      | error err => simp [Except.toOption, firstSuccess]
      | ok v => cases v <;> simp [Except.toOption, firstSuccess]

theorem locateQR_error (d : Driver) (r : Run) (err : String)
    (h : (locateQR d r).1 = .error err) : err.data.head? = some 'f' := by
  unfold locateQR at h
  split at h
  · simp at h
  · split at h
    · simp at h
    · simp only [Except.error.injEq] at h
      subst h
      simp [String.data_append]

theorem qrData_error (d : Driver) (e : Element) (r : Run) (err : String)
    (h : (qrData d e r).1 = .error err) : err.data.head? = some 'f' := by
  unfold qrData at h
  simp only at h
  split at h
  · simp at h
  · split at h
    · simp at h
    · split at h
      · simp only [Except.error.injEq] at h
        subst h
        simp [String.data_append]
      · simp at h
      · simp only [Except.error.injEq] at h
        subst h
        simp

theorem GetQRCode_authorized (d : Driver) (sid : String) (r : Run) (h : authorized d r) :
    GetQRCode d sid r
      = (.error "Already authorized",
          step d (Call.ExecuteScript probeScript [])
            (step d (Call.Get whatsappURL) (step d Call.DeleteAllCookies r))) := by
  obtain ⟨h1, h2⟩ := h
  unfold GetQRCode
  simp only [step_trace, h1, h2]

theorem GetQRCode_unauthorized (d : Driver) (sid : String) (r : Run)
    (hnav : d.Get (r.trace ++ [Call.DeleteAllCookies]) whatsappURL = none)
    (hprobe : d.ExecuteScript (r.trace ++ [Call.DeleteAllCookies] ++ [Call.Get whatsappURL])
      probeScript [] ≠ .ok (Value.bool true)) :
    GetQRCode d sid r
      = match locateQR d (afterProbe d r) with
        | (.error err, r5) => (.error err, r5)
        | (.ok qrElement, r5) => qrData d qrElement r5 := by
  unfold GetQRCode
  simp only [step_trace, hnav]
  cases hp : d.ExecuteScript (r.trace ++ [Call.DeleteAllCookies] ++ [Call.Get whatsappURL])
      probeScript [] with
  | error e => rfl
  | ok v =>
    cases v with
    | bool b =>
      cases b with
      | true => exact absurd hp hprobe
      | false => rfl
    | _ => rfl

theorem GetQRCode_error_head (d : Driver) (sid : String) (r : Run) (err : String)
    (hna : ¬ authorized d r) (h : (GetQRCode d sid r).1 = .error err) :
    err.data.head? = some 'f' := by
  cases hnav : d.Get (r.trace ++ [Call.DeleteAllCookies]) whatsappURL with
  | some e =>
    unfold GetQRCode at h
    simp only [step_trace, hnav, Except.error.injEq] at h
    subst h
    simp [String.data_append]
  | none =>
    have hprobe : d.ExecuteScript (r.trace ++ [Call.DeleteAllCookies] ++ [Call.Get whatsappURL])
        probeScript [] ≠ .ok (Value.bool true) := fun hp => hna ⟨hnav, hp⟩
    rw [GetQRCode_unauthorized d sid r hnav hprobe] at h
    split at h
    · rename_i err' r5 heq
      simp only [Except.error.injEq] at h
      subst h
      exact locateQR_error d _ _ (by rw [heq])
    · exact qrData_error d _ _ _ h

/-- C6: in every run of `GetQRCode` in which navigation succeeds and the
probe script returns the boolean `true`, the flow returns the
already-authorized outcome (the error value "Already authorized") and the
probe is the last call made: the calls of the run are delete-all-cookies,
navigation and the probe, and no find-element, is-displayed, get-attribute
or canvas-export call follows. -/
theorem GetQRCode_authorized_stops (d : Driver) (sid : String) (r : Run)
    (hnav : d.Get (r.trace ++ [Call.DeleteAllCookies]) whatsappURL = none)
    (hprobe : d.ExecuteScript (r.trace ++ [Call.DeleteAllCookies] ++ [Call.Get whatsappURL])
      probeScript [] = .ok (Value.bool true)) :
    (GetQRCode d sid r).1 = .error "Already authorized" ∧
    (GetQRCode d sid r).2.trace
      = r.trace ++ [Call.DeleteAllCookies, Call.Get whatsappURL,
          Call.ExecuteScript probeScript []] := by
  rw [GetQRCode_authorized d sid r ⟨hnav, hprobe⟩]
  simp

/-- Witness of `GetQRCode_authorized_stops`: the logged-in browser. -/
theorem GetQRCode_authorized_stops_witness :
    authorizedDriver.Get (start.trace ++ [Call.DeleteAllCookies]) whatsappURL = none ∧
    authorizedDriver.ExecuteScript
      (start.trace ++ [Call.DeleteAllCookies] ++ [Call.Get whatsappURL]) probeScript []
      = .ok (Value.bool true) ∧
    (GetQRCode authorizedDriver "session" start).1 = .error "Already authorized" ∧
    (GetQRCode authorizedDriver "session" start).2.trace
      = start.trace ++ [Call.DeleteAllCookies, Call.Get whatsappURL,
          Call.ExecuteScript probeScript []] :=
  ⟨rfl, rfl, GetQRCode_authorized_stops authorizedDriver "session" start rfl rfl⟩

/-- C10: for the located QR element, the payload `GetQRCode` returns is that
of the first strategy that succeeds, in the order `data-url` attribute, `src`
attribute, canvas-export script; a later strategy is tried only after the
earlier ones failed, and `GetQRCode` returns an error exactly when all three
fail. -/
theorem GetQRCode_payload (d : Driver) (sid : String) (r : Run) (e : Element) (r5 : Run)
    (hnav : d.Get (r.trace ++ [Call.DeleteAllCookies]) whatsappURL = none)
    (hprobe : d.ExecuteScript (r.trace ++ [Call.DeleteAllCookies] ++ [Call.Get whatsappURL])
      probeScript [] ≠ .ok (Value.bool true))
    (hloc : locateQR d (afterProbe d r) = (.ok e, r5)) :
    (GetQRCode d sid r).1.toOption
      = firstSuccess [attributeStrategy d r5.trace e "data-url",
          attributeStrategy d (r5.trace ++ [Call.GetAttribute e "data-url"]) e "src",
          canvasStrategy d
            (r5.trace ++ [Call.GetAttribute e "data-url"] ++ [Call.GetAttribute e "src"]) e] ∧
    ((∃ err, (GetQRCode d sid r).1 = .error err) ↔
      attributeStrategy d r5.trace e "data-url" = none ∧
      attributeStrategy d (r5.trace ++ [Call.GetAttribute e "data-url"]) e "src" = none ∧
      canvasStrategy d
        (r5.trace ++ [Call.GetAttribute e "data-url"] ++ [Call.GetAttribute e "src"]) e
          = none) ∧
    (GetQRCode d sid r).2.trace
      = r5.trace ++ [Call.GetAttribute e "data-url"] ++
        (if (attributeStrategy d r5.trace e "data-url").isSome then []
         else [Call.GetAttribute e "src"] ++
          (if (attributeStrategy d (r5.trace ++ [Call.GetAttribute e "data-url"]) e "src").isSome
           then [] else [Call.ExecuteScript canvasScript [e]])) := by
  rw [GetQRCode_unauthorized d sid r hnav hprobe, hloc]
  exact qrData_firstSuccess d e r5

/-- Witness of `GetQRCode_payload`: an element without `data-url` and `src`
attribute whose canvas script works; the payload is the result of the
script. -/
theorem GetQRCode_payload_witness :
    (GetQRCode canvasDriver "session" start).1 = .ok "data:image/png;base64,iVBORw0KGgo=" ∧
    (GetQRCode canvasDriver "session" start).1.toOption
      = firstSuccess [none, none, some "data:image/png;base64,iVBORw0KGgo="] ∧
    (GetQRCode canvasDriver "session" start).2.trace
      = (locateQR canvasDriver (afterProbe canvasDriver start)).2.trace ++
          [Call.GetAttribute 7 "data-url"] ++
          ([Call.GetAttribute 7 "src"] ++ [Call.ExecuteScript canvasScript [7]]) :=
  have h := GetQRCode_payload canvasDriver "session" start 7
    (locateQR canvasDriver (afterProbe canvasDriver start)).2 rfl
    (by intro h; cases h) rfl
  ⟨rfl, h.1, h.2.2⟩

end selenium

namespace usecase

open repository selenium

/-! ### The already-authorized outcome -/

/-- C5 (as stated, refuted): on a logged-in browser `GetQRCode` returns an
error value, and `CreateSession` returns an error and no session. -/
theorem already_authorized_is_error :
    (GetQRCode authorizedDriver "session" start).1 = .error "Already authorized" ∧
    (CreateSession storageDir emptyDisk authorizedDriver [0x61] ⟨0, 0, none⟩ ⟨0, 0, none⟩
      start).1 = .error "failed to get QR code: Already authorized" :=
  ⟨rfl, rfl⟩

/-- The error of `GetQRCode` is "Already authorized" in exactly the runs in
which navigation succeeds and the probe reports both tokens present. -/
theorem GetQRCode_authorized_iff (d : Driver) (sid : String) (r : Run) :
    (GetQRCode d sid r).1 = .error "Already authorized" ↔ authorized d r := by
  constructor
  · intro h
    by_contra hna
    have := GetQRCode_error_head d sid r _ hna h
    simp at this
  · intro h
    rw [GetQRCode_authorized d sid r h]

/-- What `CreateSession` does with the outcome: it wraps it like every other
error of `GetQRCode`, and returns "failed to get QR code: Already authorized"
in exactly the already-authorized runs. -/
theorem CreateSession_authorized_iff (storagePath : Bytes) (disk : Disk) (d : Driver)
    (uuid : Bytes) (created updated : Time) (r : Run) :
    (CreateSession storagePath disk d uuid created updated r).1
        = .error "failed to get QR code: Already authorized" ↔ authorized d r := by
  rw [← GetQRCode_authorized_iff d "context.Background" r]
  unfold CreateSession
  rcases hq : GetQRCode d "context.Background" r with ⟨res, r1⟩
  cases res with
  | error err =>
    simp only [Except.error.injEq]
    constructor
    · intro h
      have h2 := congrArg String.data h
      simp only [String.data_append] at h2
      have h3 := congrArg (List.drop 23) h2
      simp at h3
      exact String.ext (by simpa using h3)
    · intro h
      rw [h]
      rfl
  | ok qr =>
    simp only
    rcases hs : Save storagePath disk
      { ID := uuid, Cookies := none, Storage := none, CreatedAt := created,
        UpdatedAt := updated } with ⟨serr, disk1⟩
    cases serr with
    | none => simp
    | some e =>
      simp only [Except.error.injEq, reduceCtorEq, iff_false]
      intro h
      have h2 := congrArg String.data h
      simp only [String.data_append] at h2
      have h3 := congrArg (List.take 11) h2
      simp at h3

/-- C5 (amended): in every run of the authentication flow in which
navigation succeeds and the probe script reports both tokens present,
`GetQRCode` returns the error value with message "Already authorized"; it
returns that value in no other run, so the outcome differs from the result
of every failing run by its message, and `Execute`, which compares the
message, turns it into a result without error for a valid profile. -/
theorem already_authorized_by_message (profiles : ProfileRepository) (d : Driver)
    (sid : String) (profileID : Int) (r : Run) :
    ((GetQRCode d sid r).1 = .error "Already authorized" ↔ authorized d r) ∧
    (authorized d r → ∀ profile, profiles.Get profileID = .ok profile →
      profile.IsValid = true →
      (Execute profiles d sid profileID r).1 = .ok ⟨"", "Already authorized"⟩) := by
  refine ⟨GetQRCode_authorized_iff d sid r, ?_⟩
  intro h profile hget hvalid
  simp only [Execute, hget, hvalid, GetQRCode_authorized d sid r h, Bool.not_true,
    Bool.false_eq_true, if_false, if_true]

/-- Witness of `already_authorized_by_message`: the logged-in browser and a
repository with a valid profile. -/
theorem already_authorized_by_message_witness :
    authorized authorizedDriver start ∧
    (GetQRCode authorizedDriver "session" start).1 = .error "Already authorized" ∧
    (Execute ⟨fun id => .ok ⟨id, "profiles/profile_1", true⟩, fun _ => none,
        fun _ => (true, "")⟩ authorizedDriver "session" 1 start).1
      = .ok ⟨"", "Already authorized"⟩ :=
  have h := already_authorized_by_message
    ⟨fun id => .ok ⟨id, "profiles/profile_1", true⟩, fun _ => none, fun _ => (true, "")⟩
    authorizedDriver "session" 1 start
  ⟨⟨rfl, rfl⟩, h.1.2 ⟨rfl, rfl⟩, h.2 ⟨rfl, rfl⟩ _ rfl rfl⟩

end usecase

namespace selenium

/-! ### `Close` -/

/-- When the quit request fails, `Close` returns without a call of
`c.service.Stop()`. -/
theorem Close_quit_error (d : Driver) (r : Run) (err : String) (h : d.Quit r.trace = some err) :
    Close d r = (some ("failed to quit driver: " ++ err), step d Call.Quit r) := by
  simp only [Close, h]

/-- C7 (the code at the failing input): on a browser whose quit request
fails, `Close` returns the quit error after the single call `Quit`; the stop
of the driver process is not attempted. -/
theorem Close_skips_stop :
    Close quitFailsDriver start
      = (some "failed to quit driver: invalid session id", ⟨[Call.Quit], 0⟩) ∧
    Call.Stop ∉ (Close quitFailsDriver start).2.trace := by
  refine ⟨rfl, by decide⟩

/-! ### `RestoreSession` -/

theorem index_unmarshalMap (sessionData : SessionData) (data : List (String × Any))
    (key : String) (h : unmarshalMap sessionData = .ok data) :
    ∃ v, index data key = Any.json v := by
  have hall : ∀ kv ∈ data, ∃ v, kv.2 = Any.json v := by
    cases sessionData with
    | malformed reason => simp [unmarshalMap] at h
    | document doc =>
      cases doc with
      | object fields =>
        simp only [unmarshalMap, Except.ok.injEq] at h
        subst h
        intro kv hkv
        simp only [List.mem_map] at hkv
        obtain ⟨kv0, _, rfl⟩ := hkv
        exact ⟨kv0.2, rfl⟩
      | null =>
        simp only [unmarshalMap, Except.ok.injEq] at h
        subst h
        intro kv hkv
        simp at hkv
      | bool b => simp [unmarshalMap] at h
      | number n => simp [unmarshalMap] at h
      | string s => simp [unmarshalMap] at h
      | array items => simp [unmarshalMap] at h
  unfold index
  cases hf : data.reverse.find? (fun kv => kv.1 == key) with
  | none => exact ⟨Value.null, rfl⟩
  | some kv =>
    have hmem : kv ∈ data := by
      have := List.mem_of_find?_eq_some hf
      simpa using this
    exact hall kv hmem

/-- The cookie branch of `RestoreSession` is never taken: the value decoded
under `cookies` is no `[]selenium.Cookie`, so the flow goes on with the local
storage right after decoding. -/
theorem RestoreSession_skips_cookies (d : Driver) (sessionData : SessionData) (r : Run)
    (data : List (String × Any)) (hnav : d.Get r.trace whatsappURL = none)
    (hdata : unmarshalMap sessionData = .ok data) :
    RestoreSession d sessionData r = restoreStorage d data (step d (Call.Get whatsappURL) r) := by
  obtain ⟨v, hv⟩ := index_unmarshalMap sessionData data "cookies" hdata
  simp only [RestoreSession, hnav, hdata, hv, Any.asCookies]

/-- C2 (the code at the failing input): with session data that holds two
cookies and a browser that refuses every cookie, `RestoreSession` makes no
add-cookie call, runs the storage script and the reload, and returns nil. -/
theorem RestoreSession_ignores_cookies :
    RestoreSession rejectCookiesDriver twoCookies start
      = (Outcome.returned none,
          ⟨[Call.Get whatsappURL, Call.ExecuteScript "localStorage.clear();" [],
            Call.Refresh], 0⟩) :=
  rfl

/-- C3 (the code at the failing input): the browser holds one cookie and
every call succeeds; `GetSessionData` writes the cookie into the session
data, and `RestoreSession` on that data makes no add-cookie call. -/
theorem restore_of_extracted_adds_no_cookie :
    (GetSessionData cookieDriver start).1
      = .ok (marshalMap [("cookies", Any.cookies [sampleCookie]),
          ("localStorage", Any.json (Value.array []))]) ∧
    RestoreSession cookieDriver
        (marshalMap [("cookies", Any.cookies [sampleCookie]),
          ("localStorage", Any.json (Value.array []))])
        (GetSessionData cookieDriver start).2
      = (Outcome.returned none,
          ⟨[Call.GetCookies, Call.ExecuteScript "return Object.entries(localStorage)" [],
            Call.Get whatsappURL, Call.ExecuteScript "localStorage.clear();" [],
            Call.Refresh], 0⟩) :=
  ⟨rfl, rfl⟩

end selenium

namespace usecase

open repository selenium

/-! ### The use case `RestoreSession` -/

/-- The persisted record plays no part in what is restored: two stores that
both hold a record under the identity give the same run. -/
theorem RestoreSession_independent_of_record (storagePath : Bytes) (disk1 disk2 : Disk)
    (d : Driver) (id : Bytes) (r : Run) (s1 s2 : Session)
    (h1 : GetByID storagePath disk1 id = .ok (some s1))
    (h2 : GetByID storagePath disk2 id = .ok (some s2)) :
    RestoreSession storagePath disk1 d id r = RestoreSession storagePath disk2 d id r := by
  simp only [RestoreSession, h1, h2]

/-- C4 (the code at the failing input): the store holds a record with the
cookie `sid` under the identity, the browser holds the cookie `wa_ul`; the
use case reads the record, then hands to the restore flow the session data
read from the browser by `GetSessionData`, not the data of the record. -/
theorem RestoreSession_restores_browser_data :
    GetByID storageDir storedDisk storedSession.ID = .ok (some storedSession) ∧
    (GetSessionData cookieDriver start).1
      = .ok (marshalMap [("cookies", Any.cookies [sampleCookie]),
          ("localStorage", Any.json (Value.array []))]) ∧
    RestoreSession storageDir storedDisk cookieDriver storedSession.ID start
      = selenium.RestoreSession cookieDriver
          (marshalMap [("cookies", Any.cookies [sampleCookie]),
            ("localStorage", Any.json (Value.array []))])
          (GetSessionData cookieDriver start).2 ∧
    (RestoreSession storageDir storedDisk cookieDriver storedSession.ID start).2.trace
      = [Call.GetCookies, Call.ExecuteScript "return Object.entries(localStorage)" [],
          Call.Get whatsappURL, Call.ExecuteScript "localStorage.clear();" [],
          Call.Refresh] :=
  ⟨rfl, rfl, rfl, rfl⟩

end usecase

namespace selenium

/-! ### `findFreePort` -/

/-- What the scan does from `port` with enough fuel: it returns the least
port from `port` up to `maxPort` that binds, or fails when none of them
binds. -/
theorem portScan_spec (listen : Nat → Option String) :
    ∀ (fuel port : Nat), maxPort + 1 - port < fuel →
      (∃ p, portScan listen fuel port = some (.ok p) ∧ port ≤ p ∧ p ≤ maxPort ∧
        listen p = none ∧ ∀ q, port ≤ q → q < p → listen q ≠ none) ∨
      (portScan listen fuel port = some (.error noFreePort) ∧
        ∀ q, port ≤ q → q ≤ maxPort → listen q ≠ none) := by
  intro fuel
  induction fuel with
  | zero => intro port h; omega
  | succ f ih =>
    intro port h
    rw [portScan]
    by_cases hle : port ≤ maxPort
    · simp only [hle, if_true]
      cases hl : listen port with
      | none =>
        left
        exact ⟨port, rfl, le_refl _, hle, hl, fun q h1 h2 => by omega⟩
      | some err =>
        simp only
        rcases ih (port + 1) (by omega) with ⟨p, h1, h2, h3, h4, h5⟩ | ⟨h1, h2⟩
        · left
          refine ⟨p, h1, by omega, h3, h4, fun q hq1 hq2 => ?_⟩
          by_cases hqp : q = port
          · rw [hqp, hl]; simp
          · exact h5 q (by omega) hq2
        · right
          refine ⟨h1, fun q hq1 hq2 => ?_⟩
          by_cases hqp : q = port
          · rw [hqp, hl]; simp
          · exact h2 q (by omega) hq2
    · right
      simp only [hle, if_false, true_and]
      intro q h1 h2
      omega

/-- C11: for every assignment of bind outcomes to the ports, `findFreePort`
returns the least port of `[9515, 9999]` whose bind attempt succeeds (a port
of the range, no lower port of the range binds), or fails; it fails exactly
when no port of the range binds. -/
theorem findFreePort_least (listen : Nat → Option String) :
    ((∃ p, findFreePort listen = .ok p ∧ minPort ≤ p ∧ p ≤ maxPort ∧ listen p = none ∧
        ∀ q, minPort ≤ q → q < p → listen q ≠ none) ∨
      (findFreePort listen = .error noFreePort ∧
        ∀ q, minPort ≤ q → q ≤ maxPort → listen q ≠ none)) ∧
    ((∃ err, findFreePort listen = .error err) ↔
      ∀ q, minPort ≤ q → q ≤ maxPort → listen q ≠ none) := by
  have hfuel : maxPort + 1 - minPort < maxPort - minPort + 2 := by decide
  have key := portScan_spec listen (maxPort - minPort + 2) minPort hfuel
  have main : (∃ p, findFreePort listen = .ok p ∧ minPort ≤ p ∧ p ≤ maxPort ∧
        listen p = none ∧ ∀ q, minPort ≤ q → q < p → listen q ≠ none) ∨
      (findFreePort listen = .error noFreePort ∧
        ∀ q, minPort ≤ q → q ≤ maxPort → listen q ≠ none) := by
    rcases key with ⟨p, h1, h2, h3, h4, h5⟩ | ⟨h1, h2⟩
    · left
      exact ⟨p, by simp only [findFreePort, h1], h2, h3, h4, h5⟩
    · right
      exact ⟨by simp only [findFreePort, h1], h2⟩
  refine ⟨main, ?_⟩
  constructor
  · rintro ⟨err, herr⟩
    rcases main with ⟨p, h1, _⟩ | ⟨_, h2⟩
    · rw [h1] at herr; cases herr
    · exact h2
  · intro hall
    rcases main with ⟨p, _, h2, h3, h4, _⟩ | ⟨h1, _⟩
    · exact absurd h4 (hall p h2 h3)
    · exact ⟨_, h1⟩

/-- With two ports taken, the third port of the range is returned. -/
theorem findFreePort_busy : findFreePort busyHost.Listen = .ok 9517 := rfl

/-! ### Start-up -/

@[simp] theorem Boot.trace_step (host : Host) (c : HostCall) (b : Boot) :
    (b.step host c).trace = b.trace ++ [c] := rfl

@[simp] theorem Boot.now_step (host : Host) (c : HostCall) (b : Boot) :
    (b.step host c).now = b.now + host.duration b.trace c := rfl

@[simp] theorem Boot.trace_sleep (n : Nat) (b : Boot) : (Boot.sleep n b).trace = b.trace := rfl

@[simp] theorem Boot.now_sleep (n : Nat) (b : Boot) : (Boot.sleep n b).now = b.now + n := rfl

/-- What the dial loop does with enough fuel: it ends at a dial that started
before the deadline and connected, or it ends without connection once the
clock has reached the deadline; it only adds calls to the run. -/
theorem dialLoop_spec (host : Host) (port : Nat) (deadline : Int) :
    ∀ (fuel : Nat) (b : Boot), deadline - b.now ≤ (fuel : Int) * dialInterval →
      (∃ (b1 : Boot) (ext : List HostCall), b1.trace = b.trace ++ ext ∧ b1.now < deadline ∧
        host.Dial b1.trace port = none ∧
        dialLoop host port deadline (fuel + 1) b
          = some (true, b1.step host (HostCall.Dial port))) ∨
      (∃ (b' : Boot) (ext : List HostCall), dialLoop host port deadline (fuel + 1) b = some (false, b') ∧
        b'.trace = b.trace ++ ext ∧ deadline ≤ b'.now) := by
  intro fuel
  induction fuel with
  | zero =>
    intro b h
    right
    have hge : ¬ (b.now < deadline) := by simp at h; omega
    exact ⟨b, [], by simp [dialLoop, hge], by simp, by omega⟩
  | succ f ih =>
    intro b h
    rw [dialLoop]
    by_cases hlt : b.now < deadline
    · simp only [hlt, if_true]
      cases hd : host.Dial b.trace port with
      | none =>
        left
        exact ⟨b, [], by simp, hlt, hd, rfl⟩
      | some err =>
        simp only
        have hfuel : deadline - (Boot.sleep dialInterval (b.step host (HostCall.Dial port))).now
            ≤ (f : Int) * dialInterval := by
          simp only [Boot.now_sleep, Boot.now_step, dialInterval] at *
          push_cast at h
          omega
        rcases ih _ hfuel with ⟨b1, ext, h1, h2, h3, h4⟩ | ⟨b', ext, h1, h2, h3⟩
        · left
          refine ⟨b1, [HostCall.Dial port] ++ ext, ?_, h2, h3, h4⟩
          rw [h1]; simp
        · right
          refine ⟨b', [HostCall.Dial port] ++ ext, h1, ?_, h3⟩
          rw [h2]; simp
    · right
      exact ⟨b, [], by simp [hlt], by simp, by omega⟩

/-- The function `waitForPort` returns: nil after a dial that connected
before the deadline, its timeout error once the deadline is reached; it only
adds calls to the run. -/
theorem waitForPort_spec (host : Host) (port : Nat) (timeout : Int) (b : Boot) :
    ∃ (b' : Boot) (ext : List HostCall), (waitForPort host port timeout b).2 = b' ∧ b'.trace = b.trace ++ ext ∧
      (((waitForPort host port timeout b).1 = none ∧ ∃ b1 : Boot, b1.now < b.now + timeout ∧
          host.Dial b1.trace port = none ∧ b' = b1.step host (HostCall.Dial port)) ∨
        ((waitForPort host port timeout b).1 = some ("timeout waiting for port " ++ toString port) ∧
          b.now + timeout ≤ b'.now)) := by
  have hfuel : b.now + timeout - b.now
      ≤ ((timeout.toNat / dialInterval + 1 : Nat) : Int) * dialInterval := by
    simp only [dialInterval]
    have h := Nat.div_add_mod timeout.toNat 100000000
    have h2 := Nat.mod_lt timeout.toNat (by decide : 100000000 > 0)
    have h3 : timeout ≤ timeout.toNat := Int.self_le_toNat timeout
    push_cast
    omega
  rcases dialLoop_spec host port (b.now + timeout) (timeout.toNat / dialInterval + 1) b hfuel
    with ⟨b1, ext, h1, h2, h3, h4⟩ | ⟨b', ext, h1, h2, h3⟩
  · refine ⟨b1.step host (HostCall.Dial port), ext ++ [HostCall.Dial port], ?_, ?_, ?_⟩
    · simp only [waitForPort, h4]
    · simp [h1]
    · left
      exact ⟨by simp only [waitForPort, h4], b1, h2, h3, rfl⟩
  · refine ⟨b', ext, ?_, h2, ?_⟩
    · simp only [waitForPort, h1]
    · right
      exact ⟨by simp only [waitForPort, h1], h3⟩

/-- When `launch` succeeds, its last call is the start of the driver
service, and that call returned no error. -/
theorem launch_ok (host : Host) (b : Boot) (port : Nat) (b5 : Boot)
    (h : launch host b = (.ok port, b5)) :
    ∃ t, b5.trace = t ++ [HostCall.NewChromeDriverService (joinPath "driver" "chromedriver.exe")
        port] ∧
      host.NewChromeDriverService t (joinPath "driver" "chromedriver.exe") port = none := by
  unfold launch at h
  cases hp : findFreePort host.Listen with
  | error err => simp [hp] at h
  | ok p =>
    simp only [hp] at h
    split at h
    · simp at h
    · split at h
      · simp at h
      · split at h
        · simp at h
        · split at h
          · simp at h
          · rename_i hsvc
            simp only [Prod.mk.injEq, Except.ok.injEq] at h
            obtain ⟨h1, h2⟩ := h
            subst h1 h2
            exact ⟨_, rfl, hsvc⟩

/-- Every error of `connect` is returned right after the call
`service.Stop()`. -/
theorem connect_error_stops (host : Host) (port : Nat) (b : Boot) (err : String)
    (herr : (connect host port b).1 = some err) :
    ∃ mid, (connect host port b).2.trace = b.trace ++ mid ++ [HostCall.Stop] := by
  obtain ⟨b1, ext, hb1, htr, _⟩ := waitForPort_spec host port (10 * 1000000000) b
  unfold connect at herr ⊢
  rcases hw : waitForPort host port (10 * 1000000000) b with ⟨werr, bw⟩
  rw [hw] at hb1
  simp only at hb1
  subst hb1
  rw [hw] at herr
  cases werr with
  | some e => exact ⟨ext, by simp [htr]⟩
  | none =>
    simp only at herr ⊢
    cases h1 : host.NewRemote bw.trace port with
    | some e => exact ⟨ext ++ [HostCall.NewRemote port], by simp [htr]⟩
    | none =>
      simp only [h1, Boot.trace_step] at herr ⊢
      cases h2 : host.SetImplicitWaitTimeout (bw.trace ++ [HostCall.NewRemote port])
          defaultTimeout with
      | some e =>
        exact ⟨ext ++ [HostCall.NewRemote port, HostCall.SetImplicitWaitTimeout defaultTimeout,
          HostCall.Quit], by simp [htr]⟩
      | none =>
        simp only [h2] at herr ⊢
        cases h3 : host.SetPageLoadTimeout
            (bw.trace ++ [HostCall.NewRemote port] ++
              [HostCall.SetImplicitWaitTimeout defaultTimeout]) defaultTimeout with
        | some e =>
          exact ⟨ext ++ [HostCall.NewRemote port,
            HostCall.SetImplicitWaitTimeout defaultTimeout,
            HostCall.SetPageLoadTimeout defaultTimeout, HostCall.Quit], by simp [htr]⟩
        | none =>
          simp only [List.append_assoc, List.singleton_append] at h3
          simp [h3] at herr

/-- C12: in every run of `NewWhatsAppClient` that returns an error after the
driver service was started without error (whether the port never became
reachable, the remote session was refused or a timeout setting was
rejected), the call `service.Stop()` is made after the start of the service
and is the last call before the error is returned. -/
theorem NewWhatsAppClient_stops_on_error (host : Host) (b : Boot) (port : Nat) (b5 : Boot)
    (err : String) (hlaunch : launch host b = (.ok port, b5))
    (herr : (NewWhatsAppClient host b).1 = some err) :
    (∃ t, b5.trace = t ++ [HostCall.NewChromeDriverService (joinPath "driver" "chromedriver.exe")
        port] ∧
      host.NewChromeDriverService t (joinPath "driver" "chromedriver.exe") port = none) ∧
    ∃ mid, (NewWhatsAppClient host b).2.trace = b5.trace ++ mid ++ [HostCall.Stop] := by
  refine ⟨launch_ok host b port b5 hlaunch, ?_⟩
  have hc : NewWhatsAppClient host b = connect host port b5 := by
    simp only [NewWhatsAppClient, hlaunch]
  rw [hc] at herr ⊢
  exact connect_error_stops host port b5 err herr

/-- Witness of `NewWhatsAppClient_stops_on_error`: the service starts on port
9515 but never accepts a connection; after ten seconds of dialling the
service is stopped and the error returned. -/
theorem NewWhatsAppClient_stops_on_error_witness :
    launch deafHost boot = (.ok 9515, (launch deafHost boot).2) ∧
    (NewWhatsAppClient deafHost boot).1
      = some "ChromeDriver not ready: timeout waiting for port 9515" ∧
    ∃ mid, (NewWhatsAppClient deafHost boot).2.trace
      = (launch deafHost boot).2.trace ++ mid ++ [HostCall.Stop] :=
  ⟨rfl, rfl, (NewWhatsAppClient_stops_on_error deafHost boot 9515 _ _ rfl rfl).2⟩

/-- On a machine where everything succeeds the client is returned and the
service is left running. -/
theorem NewWhatsAppClient_ready :
    NewWhatsAppClient readyHost boot
      = (none, ⟨[HostCall.ReadDir "chrome_data",
          HostCall.Abs "chrome_data/session_20240102_030405_4242",
          HostCall.RemoveAll "C:/app/chrome_data/session_20240102_030405_4242",
          HostCall.MkdirAll "C:/app/chrome_data/session_20240102_030405_4242",
          HostCall.NewChromeDriverService "driver/chromedriver.exe" 9515,
          HostCall.Dial 9515, HostCall.NewRemote 9515,
          HostCall.SetImplicitWaitTimeout 30000000000,
          HostCall.SetPageLoadTimeout 30000000000], 0⟩) := by
  decide

/-! ### `cleanOldSessions` -/

/-- C14 (the code at the failing input): at clock 100 s the listing holds a
directory modified 60 seconds before; `cleanOldSessions` removes it, and the
directory modified 25 hours before, and keeps only the directory modified 10
seconds before and the regular file: the threshold is 24 seconds, not 24
hours. -/
theorem cleanOldSessions_removes_after_24_seconds :
    cleanOldSessions janitorHost "chrome_data" ⟨[], 100000000000⟩
      = (none, ⟨[HostCall.ReadDir "chrome_data", HostCall.RemoveAll "chrome_data/session_a",
          HostCall.RemoveAll "chrome_data/session_c"], 100000000000⟩) := by
  decide

/-- With calls that take no time, the removals requested are those of the
directories whose age exceeds 24 seconds, in listing order. -/
theorem cleanLoop_removals (host : Host) (baseDir : String)
    (hzero : ∀ h c, host.duration h c = 0) :
    ∀ (files : List FileInfo) (b : Boot),
      (cleanLoop host baseDir files b).trace
        = b.trace ++ (files.filter
            (fun f => f.IsDir && decide (b.now - f.ModTime > retention))).map
            (fun f => HostCall.RemoveAll (joinPath baseDir f.Name)) := by
  intro files
  induction files with
  | nil => intro b; simp [cleanLoop]
  | cons f rest ih =>
    intro b
    rw [cleanLoop]
    cases hdir : f.IsDir with
    | false => simp [ih, hdir]
    | true =>
      by_cases hold : b.now - f.ModTime > retention
      · have hnow : (b.step host (HostCall.RemoveAll (joinPath baseDir f.Name))).now = b.now := by
          simp [hzero]
        simp only [Bool.not_true, Bool.false_eq_true, if_false, hold, if_true, ih, hnow,
          Boot.trace_step, List.filter_cons, hdir, Bool.true_and, decide_True, List.map_cons,
          List.append_assoc, List.singleton_append]
      · simp [ih, hdir, hold]

/-! ### `SendMessage` -/

theorem waitLoop_trace (d : Driver) (strategy value : String) (deadline : Int) :
    ∀ (fuel : Nat) (r : Run) (res : Option Element) (r' : Run),
      waitLoop d strategy value deadline fuel r = some (res, r') →
      ∃ polls, r'.trace = r.trace ++ polls ∧ ∀ c ∈ polls, isPoll strategy value c := by
  intro fuel
  induction fuel with
  | zero => intro r res r' h; simp [waitLoop] at h
  | succ f ih =>
    intro r res r' h
    rw [waitLoop] at h
    by_cases hlt : r.now < deadline
    · simp only [hlt, if_true] at h
      have hfind : isPoll strategy value (Call.FindElement strategy value) := Or.inl rfl
      cases hf : d.FindElement r.trace strategy value with
      | error err =>
        simp only [hf] at h
        obtain ⟨polls, h1, h2⟩ := ih _ _ _ h
        refine ⟨[Call.FindElement strategy value] ++ polls, by simp [h1], ?_⟩
        intro c hc
        simp only [List.singleton_append, List.mem_cons] at hc
        rcases hc with rfl | hc
        · exact hfind
        · exact h2 c hc
      | ok e =>
        simp only [hf, step_trace] at h
        have hshow : isPoll strategy value (Call.IsDisplayed e) := Or.inr ⟨e, rfl⟩
        have rest : waitLoop d strategy value deadline f
            (sleep pollInterval (step d (Call.IsDisplayed e)
              (step d (Call.FindElement strategy value) r))) = some (res, r') →
            ∃ polls, r'.trace = r.trace ++ polls ∧ ∀ c ∈ polls, isPoll strategy value c := by
          intro h
          obtain ⟨polls, h1, h2⟩ := ih _ _ _ h
          refine ⟨[Call.FindElement strategy value, Call.IsDisplayed e] ++ polls,
            by simp [h1], ?_⟩
          intro c hc
          simp only [List.cons_append, List.nil_append, List.mem_cons] at hc
          rcases hc with rfl | rfl | hc
          · exact hfind
          · exact hshow
          · exact h2 c hc
        cases hd : d.IsDisplayed (r.trace ++ [Call.FindElement strategy value]) e with
        | error err => simp only [hd] at h; exact rest h
        | ok v =>
          cases v with
          | false => simp only [hd] at h; exact rest h
          | true =>
            simp only [hd, Option.some.injEq, Prod.mk.injEq] at h
            obtain ⟨_, h2⟩ := h
            subst h2
            refine ⟨[Call.FindElement strategy value, Call.IsDisplayed e], by simp, ?_⟩
            intro c hc
            simp only [List.mem_cons, List.mem_singleton, List.not_mem_nil, or_false] at hc
            rcases hc with rfl | rfl
            · exact hfind
            · exact hshow
    · simp only [hlt, if_false, Option.some.injEq, Prod.mk.injEq] at h
      obtain ⟨_, h2⟩ := h
      subst h2
      exact ⟨[], by simp, by simp⟩

/-- The calls `waitForElement` adds to the run are polls of its locator. -/
theorem waitForElement_trace (d : Driver) (strategy value : String) (timeout : Int) (r : Run) :
    ∃ polls, (waitForElement d strategy value timeout r).2.trace = r.trace ++ polls ∧
      ∀ c ∈ polls, isPoll strategy value c := by
  unfold waitForElement
  cases hw : waitLoop d strategy value (r.now + timeout) (waitFuel timeout) r with
  | none => exact ⟨[], by simp, by simp⟩
  | some res =>
    obtain ⟨res1, r'⟩ := res
    obtain ⟨polls, h1, h2⟩ := waitLoop_trace d strategy value _ _ _ _ _ hw
    cases res1 with
    | none => exact ⟨polls, h1, h2⟩
    | some e => exact ⟨polls, h1, h2⟩

/-- C13: for every recipient `p` and message `m`, the calls of
`SendMessage(p, m)` are the navigation to the base URL followed by
`/send?phone=` and `p` unchanged, then the polls of the one wait for the
composer, then send-keys of `m`, then send-keys of Enter; the run stops at
the first of these four steps that fails and returns its error, it returns
nil exactly when all four succeed, and each step is made once. -/
theorem SendMessage_single_attempt (d : Driver) (p m : String) (r : Run) :
    ∃ polls, (∀ c ∈ polls, isPoll ByCSSSelector composer c) ∧
      ((∃ err, d.Get r.trace (whatsappURL ++ "/send?phone=" ++ p) = some err ∧
          (SendMessage d p m r).1 = some ("failed to open chat: " ++ err) ∧
          (SendMessage d p m r).2.trace
            = r.trace ++ [Call.Get (whatsappURL ++ "/send?phone=" ++ p)]) ∨
        (d.Get r.trace (whatsappURL ++ "/send?phone=" ++ p) = none ∧
          ∃ err,
            (waitForElement d ByCSSSelector composer defaultTimeout
              (step d (Call.Get (whatsappURL ++ "/send?phone=" ++ p)) r)).1 = .error err ∧
            (SendMessage d p m r).1 = some ("failed to find message input: " ++ err) ∧
            (SendMessage d p m r).2.trace
              = r.trace ++ [Call.Get (whatsappURL ++ "/send?phone=" ++ p)] ++ polls) ∨
        (d.Get r.trace (whatsappURL ++ "/send?phone=" ++ p) = none ∧
          ∃ input,
            (waitForElement d ByCSSSelector composer defaultTimeout
              (step d (Call.Get (whatsappURL ++ "/send?phone=" ++ p)) r)).1 = .ok input ∧
            ((∃ err,
                d.SendKeys (r.trace ++ [Call.Get (whatsappURL ++ "/send?phone=" ++ p)] ++ polls)
                  input m = some err ∧
                (SendMessage d p m r).1 = some ("failed to input message: " ++ err) ∧
                (SendMessage d p m r).2.trace
                  = r.trace ++ [Call.Get (whatsappURL ++ "/send?phone=" ++ p)] ++ polls ++
                    [Call.SendKeys input m]) ∨
              (d.SendKeys (r.trace ++ [Call.Get (whatsappURL ++ "/send?phone=" ++ p)] ++ polls)
                  input m = none ∧
                ∃ err,
                  d.SendKeys (r.trace ++ [Call.Get (whatsappURL ++ "/send?phone=" ++ p)] ++
                    polls ++ [Call.SendKeys input m]) input EnterKey = some err ∧
                  (SendMessage d p m r).1 = some ("failed to send message: " ++ err) ∧
                  (SendMessage d p m r).2.trace
                    = r.trace ++ [Call.Get (whatsappURL ++ "/send?phone=" ++ p)] ++ polls ++
                      [Call.SendKeys input m, Call.SendKeys input EnterKey]) ∨
              (d.SendKeys (r.trace ++ [Call.Get (whatsappURL ++ "/send?phone=" ++ p)] ++ polls)
                  input m = none ∧
                d.SendKeys (r.trace ++ [Call.Get (whatsappURL ++ "/send?phone=" ++ p)] ++
                  polls ++ [Call.SendKeys input m]) input EnterKey = none ∧
                (SendMessage d p m r).1 = none ∧
                (SendMessage d p m r).2.trace
                  = r.trace ++ [Call.Get (whatsappURL ++ "/send?phone=" ++ p)] ++ polls ++
                    [Call.SendKeys input m, Call.SendKeys input EnterKey])))) := by
  obtain ⟨polls, htr, hpolls⟩ := waitForElement_trace d ByCSSSelector composer defaultTimeout
    (step d (Call.Get (whatsappURL ++ "/send?phone=" ++ p)) r)
  refine ⟨polls, hpolls, ?_⟩
  cases hnav : d.Get r.trace (whatsappURL ++ "/send?phone=" ++ p) with
  | some err =>
    left
    exact ⟨err, rfl, by simp only [SendMessage, hnav], by simp only [SendMessage, hnav, step_trace]⟩
  | none =>
    right
    rcases hw : waitForElement d ByCSSSelector composer defaultTimeout
      (step d (Call.Get (whatsappURL ++ "/send?phone=" ++ p)) r) with ⟨res, r2⟩
    rw [hw] at htr
    simp only [step_trace] at htr
    cases res with
    | error err =>
      left
      exact ⟨rfl, err, rfl, by simp only [SendMessage, hnav, hw],
        by simp only [SendMessage, hnav, hw, htr]⟩
    | ok input =>
      right
      refine ⟨rfl, input, rfl, ?_⟩
      cases h1 : d.SendKeys (r.trace ++ [Call.Get (whatsappURL ++ "/send?phone=" ++ p)] ++ polls)
          input m with
      | some err =>
        left
        exact ⟨err, rfl, by simp only [SendMessage, hnav, hw, htr, h1],
          by simp only [SendMessage, hnav, hw, htr, h1, step_trace]⟩
      | none =>
        right
        cases h2 : d.SendKeys (r.trace ++ [Call.Get (whatsappURL ++ "/send?phone=" ++ p)] ++
            polls ++ [Call.SendKeys input m]) input EnterKey with
        | some err =>
          left
          exact ⟨rfl, err, rfl, by simp only [SendMessage, hnav, hw, htr, h1, step_trace, h2],
            by simp only [SendMessage, hnav, hw, htr, h1, step_trace, h2]; try simp⟩
        | none =>
          right
          exact ⟨rfl, rfl, by simp only [SendMessage, hnav, hw, htr, h1, step_trace, h2],
            by simp only [SendMessage, hnav, hw, htr, h1, step_trace, h2]; try simp⟩

/-- On a browser that shows the composer, the four steps are made once each
and the call returns nil. -/
theorem SendMessage_sent :
    SendMessage chatDriver "15551234567" "hello" start
      = (none, ⟨[Call.Get "https://web.whatsapp.com/send?phone=15551234567",
          Call.FindElement ByCSSSelector composer, Call.IsDisplayed 3,
          Call.SendKeys 3 "hello", Call.SendKeys 3 EnterKey], 0⟩) :=
  rfl

/-! ### The storage script of `RestoreSession` -/

/-- On a list of pairs of strings the script loop never panics and appends
one `setItem` statement per pair, in list order. -/
theorem storageScript_pairs (pairs : List (String × String)) :
    ∀ script, storageScript script (pairs.map pairValue) = some (script ++ setItems pairs) := by
  induction pairs with
  | nil => intro script; simp [storageScript, setItems]
  | cons kv rest ih =>
    intro script
    simp only [List.map_cons, pairValue, storageScript, ih, setItems, setItem,
      String.append_assoc]

/-- C15 (as stated, refuted): the session data holds two pairs of strings,
but the navigation fails; `RestoreSession` returns the navigation error and
executes no storage script. -/
theorem RestoreSession_offline_runs_no_script :
    RestoreSession offlineDriver twoPairs start
      = (Outcome.returned
          (some "failed to open WhatsApp Web: net::ERR_INTERNET_DISCONNECTED"),
          ⟨[Call.Get whatsappURL], 0⟩) :=
  rfl

/-- C15 (amended): in every run of `RestoreSession` in which the navigation
succeeds, on session data whose `localStorage` field is a list of
`[key, value]` pairs of strings, exactly one storage script is executed, and
it is "localStorage.clear();" followed, for each pair in list order, by
"localStorage.setItem('key', 'value');"; the reload follows when the script
succeeds. -/
theorem RestoreSession_storage_script (d : Driver) (sessionData : SessionData)
    (data : List (String × Any)) (pairs : List (String × String)) (r : Run)
    (hnav : d.Get r.trace whatsappURL = none)
    (hdata : unmarshalMap sessionData = .ok data)
    (hpairs : index data "localStorage" = Any.json (Value.array (pairs.map pairValue))) :
    (RestoreSession d sessionData r).2.trace
      = r.trace ++ [Call.Get whatsappURL, Call.ExecuteScript (replayScript pairs) []] ++
        (match d.ExecuteScript (r.trace ++ [Call.Get whatsappURL]) (replayScript pairs) [] with
         | .ok _ => [Call.Refresh]
         | .error _ => []) ∧
    (∀ err, d.ExecuteScript (r.trace ++ [Call.Get whatsappURL]) (replayScript pairs) []
        = .error err →
      (RestoreSession d sessionData r).1
        = Outcome.returned (some ("failed to restore localStorage: " ++ err))) := by
  rw [RestoreSession_skips_cookies d sessionData r data hnav hdata]
  have hscript : storageScript "localStorage.clear();" (pairs.map pairValue)
      = some (replayScript pairs) := storageScript_pairs pairs _
  unfold restoreStorage
  simp only [hpairs, Any.asSlice, hscript, step_trace]
  cases hs : d.ExecuteScript (r.trace ++ [Call.Get whatsappURL]) (replayScript pairs) [] with
  | error err => simp
  | ok v =>
    simp only
    cases hr : d.Refresh (r.trace ++ [Call.Get whatsappURL] ++
        [Call.ExecuteScript (replayScript pairs) []]) with
    | none => simp
    | some err => simp

/-- Witness of `RestoreSession_storage_script`: two pairs on the idle
browser. -/
theorem RestoreSession_storage_script_witness :
    (RestoreSession idleDriver twoPairs start).2.trace
      = [Call.Get whatsappURL,
          Call.ExecuteScript
            "localStorage.clear();localStorage.setItem('WAToken1', 'a');localStorage.setItem('WAToken2', 'b');"
            [],
          Call.Refresh] ∧
    replayScript [("WAToken1", "a"), ("WAToken2", "b")]
      = "localStorage.clear();localStorage.setItem('WAToken1', 'a');localStorage.setItem('WAToken2', 'b');" :=
  have h := RestoreSession_storage_script idleDriver twoPairs
    [("cookies", Any.json (Value.array [])),
      ("localStorage", Any.json (Value.array
        [pairValue ("WAToken1", "a"), pairValue ("WAToken2", "b")]))]
    [("WAToken1", "a"), ("WAToken2", "b")] start rfl rfl rfl
  ⟨h.1, by decide⟩

/-- C16 (the code at the failing input): on session data whose local storage
holds the pair `[1, 2]`, and on data with the pair `["k", null]`, the type
assertion `pair[0].(string)`, resp. `pair[1].(string)`, fails and
`RestoreSession` panics after the navigation. -/
theorem RestoreSession_panics :
    RestoreSession idleDriver numberPair start = (Outcome.panic, ⟨[Call.Get whatsappURL], 0⟩) ∧
    RestoreSession idleDriver nullPair start = (Outcome.panic, ⟨[Call.Get whatsappURL], 0⟩) :=
  ⟨rfl, rfl⟩

end selenium
